import Mathlib

/-!
# Verification of the Dhararakshak geotechnical analysis engine

A shallow embedding, over the real numbers, of the quantitative core of the
Dhararakshak slope-stability system (`js/geotechnical-engine.js`,
`js/risk-classifier.js`, `js/mitigation-engine.js`), together with theorems
settling the specification claims about it.

Modelling conventions:
* JavaScript floating-point numbers are modelled as real numbers (`ℝ`);
  `Math.sin`/`cos`/`tan`/`pow` become `Real.sin`/`cos`/`tan`/`Real.rpow`.
* The cosmetic `parseFloat(x.toFixed(k))` display roundings of the source are
  omitted: every theorem below is about the underlying computed value.
* `Math.random()`-driven draws are modelled by an explicit stream of
  Box–Muller z-scores supplied as an argument (the source computes
  `z = sqrt(-2 ln u1) * cos(2 pi u2)`, which ranges over all of `ℝ`).
* Strings that merely display a computed datum (status texts, colour codes,
  recommendation sentences) are modelled by the datum itself
  (a level number, an inductive tag, or the numeric value interpolated
  into the sentence).
-/

namespace Dhara

noncomputable section

open Real Classical

/-- `WATER_DENSITY` (γw) from the engine's constants, kN/m³. -/
def WATER_DENSITY : ℝ := 9.81

/-- `DEFAULT_DEPTH`: assumed failure depth, m (source writes `5.0`). -/
def DEFAULT_DEPTH : ℝ := 5

/-- `degreesToRadians`: `deg * Math.PI / 180`. -/
def degToRad (d : ℝ) : ℝ := d * π / 180

/-- `Math.sin` applied to an angle given in degrees, as the source always does. -/
def sinDeg (d : ℝ) : ℝ := Real.sin (degToRad d)

/-- `Math.cos` applied to an angle given in degrees. -/
def cosDeg (d : ℝ) : ℝ := Real.cos (degToRad d)

/-- `Math.tan` applied to an angle given in degrees. -/
def tanDeg (d : ℝ) : ℝ := Real.tan (degToRad d)

/-! ## A. Infinite Slope Method (`infiniteSlope`) -/

/-- Parameters of `infiniteSlope`.  The source destructures its argument with
defaults `cohesion = 5, frictionAngle = 30, slopeAngle = 35, unitWeight = 19,
depth = DEFAULT_DEPTH, saturation = 50, crackReduction = 0, rootCohesion = 0,
structuralAdd = 0`; call sites that omit a field are embedded by passing that
default explicitly. -/
structure ISParams where
  cohesion : ℝ
  frictionAngle : ℝ
  slopeAngle : ℝ
  unitWeight : ℝ
  depth : ℝ
  saturation : ℝ
  crackReduction : ℝ
  rootCohesion : ℝ
  structuralAdd : ℝ

/-- `c_eff = cohesion * (1.0 - crackReduction) + rootCohesion + structuralAdd`. -/
def cEff (p : ISParams) : ℝ :=
  p.cohesion * (1 - p.crackReduction) + p.rootCohesion + p.structuralAdd

/-- `hw = (saturation / 100) * depth`. -/
def hwOf (p : ISParams) : ℝ := p.saturation / 100 * p.depth

/-- Pore water pressure `u = WATER_DENSITY * hw * cos²β`. -/
def poreU (p : ISParams) : ℝ := WATER_DENSITY * hwOf p * cosDeg p.slopeAngle ^ 2

/-- Normal stress `sigma_n = unitWeight * depth * cos²β`. -/
def sigmaN (p : ISParams) : ℝ := p.unitWeight * p.depth * cosDeg p.slopeAngle ^ 2

/-- Effective normal stress `sigma_prime = max(0, sigma_n - u)`. -/
def sigmaPrime (p : ISParams) : ℝ := max 0 (sigmaN p - poreU p)

/-- Resisting force per unit area `resisting = c_eff + sigma_prime * tan φ`. -/
def resisting (p : ISParams) : ℝ := cEff p + sigmaPrime p * tanDeg p.frictionAngle

/-- Driving force per unit area `driving = unitWeight * depth * sin β * cos β`. -/
def driving (p : ISParams) : ℝ :=
  p.unitWeight * p.depth * sinDeg p.slopeAngle * cosDeg p.slopeAngle

/-- Result record of `infiniteSlope` (numeric fields; the constant `method`
string and the `details` echo of inputs are omitted). -/
structure ISResult where
  fos : ℝ
  resisting : ℝ
  driving : ℝ
  sigma_n : ℝ
  sigma_prime : ℝ
  pore_pressure : ℝ
  c_eff : ℝ

/-- `infiniteSlope`: `fos = driving <= 0 ? 10.0 : resisting / driving`
followed by `fos = Math.min(fos, 10.0)`. -/
def infiniteSlope (p : ISParams) : ISResult where
  fos := min (if driving p ≤ 0 then (10 : ℝ) else resisting p / driving p) 10
  resisting := resisting p
  driving := driving p
  sigma_n := sigmaN p
  sigma_prime := sigmaPrime p
  pore_pressure := poreU p
  c_eff := cEff p

/-- The closed-form Infinite Slope Factor of Safety exactly as the
specification states it:
`FoS = [c' + (γ·z·cos²β − u)·tanφ'] / (γ·z·sinβ·cosβ)` — written from the
spec's words, with no clamp on the effective stress and no cap at 10.
Used to compare the code against the spec's formula. -/
def specInfFoS (p : ISParams) : ℝ :=
  (cEff p + (sigmaN p - poreU p) * tanDeg p.frictionAngle) / driving p

/-- The golden-value input of the spec's test:
cohesion 8 kPa, friction 28°, slope 35°, unit weight 18.5 kN/m³, depth 5 m,
saturation 50 % (remaining fields at their source defaults). -/
def goldenParams : ISParams := ⟨8, 28, 35, 18.5, 5, 50, 0, 0, 0⟩

/-- The golden-value input with cohesion raised to 1000 kPa; every other
field unchanged.  Its driving force is positive but its closed-form FoS
exceeds the display cap of 10. -/
def bigCohesionParams : ISParams := ⟨1000, 28, 35, 18.5, 5, 50, 0, 0, 0⟩

/-! ### Elementary facts about degree-based trigonometry -/

lemma degToRad_pos {d : ℝ} (h : 0 < d) : 0 < degToRad d := by
  unfold degToRad; positivity

lemma degToRad_nonneg {d : ℝ} (h : 0 ≤ d) : 0 ≤ degToRad d := by
  unfold degToRad; positivity

lemma degToRad_le_degToRad {a b : ℝ} (h : a ≤ b) : degToRad a ≤ degToRad b := by
  unfold degToRad
  have hπ := Real.pi_pos
  nlinarith

lemma degToRad_lt_pi_div_two {d : ℝ} (h : d < 90) : degToRad d < π / 2 := by
  unfold degToRad
  have hπ := Real.pi_pos
  nlinarith

lemma degToRad_le_pi_div_two {d : ℝ} (h : d ≤ 90) : degToRad d ≤ π / 2 := by
  unfold degToRad
  have hπ := Real.pi_pos
  nlinarith

lemma degToRad_lt_pi {d : ℝ} (h : d < 180) : degToRad d < π := by
  unfold degToRad
  have hπ := Real.pi_pos
  nlinarith

lemma sinDeg_pos {d : ℝ} (h0 : 0 < d) (h1 : d < 180) : 0 < sinDeg d :=
  Real.sin_pos_of_pos_of_lt_pi (degToRad_pos h0) (degToRad_lt_pi h1)

lemma cosDeg_pos {d : ℝ} (h0 : -90 < d) (h1 : d < 90) : 0 < cosDeg d := by
  refine Real.cos_pos_of_mem_Ioo ⟨?_, degToRad_lt_pi_div_two h1⟩
  have h := degToRad_lt_pi_div_two (d := -d) (by linarith)
  unfold degToRad at h ⊢
  nlinarith [Real.pi_pos]

lemma cosDeg_nonneg {d : ℝ} (h0 : 0 ≤ d) (h1 : d ≤ 90) : 0 ≤ cosDeg d :=
  Real.cos_nonneg_of_mem_Icc
    ⟨by have := degToRad_nonneg h0; have := Real.pi_pos; linarith,
     degToRad_le_pi_div_two h1⟩

lemma tanDeg_nonneg {d : ℝ} (h0 : 0 ≤ d) (h1 : d ≤ 90) : 0 ≤ tanDeg d :=
  Real.tan_nonneg_of_nonneg_of_le_pi_div_two (degToRad_nonneg h0)
    (degToRad_le_pi_div_two h1)

lemma sinDeg_mul_cosDeg (d : ℝ) :
    sinDeg d * cosDeg d = Real.sin (degToRad (2 * d)) / 2 := by
  unfold sinDeg cosDeg
  rw [show degToRad (2 * d) = 2 * degToRad d by unfold degToRad; ring,
    Real.sin_two_mul]
  ring

lemma sinDeg_mul_cosDeg_le_half (d : ℝ) : sinDeg d * cosDeg d ≤ 1 / 2 := by
  rw [sinDeg_mul_cosDeg]
  have h := Real.sin_le_one (degToRad (2 * d))
  linarith

lemma sqrt_two_lower : (1.4 : ℝ) ≤ Real.sqrt 2 := by
  nlinarith [Real.sq_sqrt (by norm_num : (0:ℝ) ≤ 2), Real.sqrt_nonneg 2]

lemma sqrt_three_bounds : (1 : ℝ) ≤ Real.sqrt 3 ∧ Real.sqrt 3 < 2 := by
  constructor <;>
    nlinarith [Real.sq_sqrt (by norm_num : (0:ℝ) ≤ 3), Real.sqrt_nonneg 3]

/-- At the 35°/28° geometry shared by the golden and big-cohesion inputs,
`sin β · cos β ≥ √2/4 ≥ 0.35`. -/
lemma sc35_lower : (0.35 : ℝ) ≤ sinDeg 35 * cosDeg 35 := by
  rw [sinDeg_mul_cosDeg]
  have h70 : Real.sin (π / 4) < Real.sin (degToRad (2 * 35)) := by
    apply Real.sin_lt_sin_of_lt_of_le_pi_div_two
    · have := Real.pi_pos; linarith
    · exact degToRad_le_pi_div_two (by norm_num)
    · have h := Real.pi_pos
      unfold degToRad
      nlinarith
  rw [Real.sin_pi_div_four] at h70
  have := sqrt_two_lower
  linarith

/-! ### C1: the Infinite Slope FoS formula -/

/-- Claim C1 counterexample.  At the golden geometry but with cohesion
1000 kPa the driving force is positive, yet the returned FoS (capped at 10)
differs from the closed-form value the claim prescribes. -/
theorem infiniteSlope_fos_ne_closed_form :
    0 < driving bigCohesionParams ∧
    (infiniteSlope bigCohesionParams).fos ≠ specInfFoS bigCohesionParams := by
  have hs : 0 < sinDeg 35 := sinDeg_pos (by norm_num) (by norm_num)
  have hc : 0 < cosDeg 35 := cosDeg_pos (by norm_num) (by norm_num)
  have ht : 0 ≤ tanDeg 28 := tanDeg_nonneg (by norm_num) (by norm_num)
  have hsc : sinDeg 35 * cosDeg 35 ≤ 1 / 2 := sinDeg_mul_cosDeg_le_half 35
  have hdrv : driving bigCohesionParams = 92.5 * (sinDeg 35 * cosDeg 35) := by
    unfold driving bigCohesionParams
    norm_num; ring
  have hpos : 0 < driving bigCohesionParams := by
    rw [hdrv]; positivity
  have hdle : driving bigCohesionParams ≤ 46.25 := by
    rw [hdrv]; nlinarith
  refine ⟨hpos, ?_⟩
  have hcE : cEff bigCohesionParams = 1000 := by
    unfold cEff bigCohesionParams; norm_num
  have hsp : 0 ≤ sigmaPrime bigCohesionParams := le_max_left 0 _
  have hres : (1000 : ℝ) ≤ resisting bigCohesionParams := by
    unfold resisting
    rw [hcE]
    have : 0 ≤ sigmaPrime bigCohesionParams * tanDeg bigCohesionParams.frictionAngle := by
      have : bigCohesionParams.frictionAngle = 28 := rfl
      rw [this]; exact mul_nonneg hsp ht
    linarith
  -- the code caps the quotient at 10
  have hquot : (10 : ℝ) ≤ resisting bigCohesionParams / driving bigCohesionParams := by
    rw [le_div_iff₀ hpos]
    nlinarith
  have hfos : (infiniteSlope bigCohesionParams).fos = 10 := by
    show min (if driving bigCohesionParams ≤ 0 then (10:ℝ)
        else resisting bigCohesionParams / driving bigCohesionParams) 10 = 10
    rw [if_neg (not_le.mpr hpos)]
    exact min_eq_right hquot
  -- while the closed-form value exceeds 10
  have hnum : (1000 : ℝ) ≤
      cEff bigCohesionParams +
        (sigmaN bigCohesionParams - poreU bigCohesionParams) *
          tanDeg bigCohesionParams.frictionAngle := by
    have hfa : bigCohesionParams.frictionAngle = 28 := rfl
    have hd : sigmaN bigCohesionParams - poreU bigCohesionParams =
        67.975 * cosDeg 35 ^ 2 := by
      unfold sigmaN poreU hwOf WATER_DENSITY bigCohesionParams
      norm_num; ring
    rw [hcE, hfa, hd]
    nlinarith
  have hspec : (10 : ℝ) < specInfFoS bigCohesionParams := by
    unfold specInfFoS
    rw [lt_div_iff₀ hpos]
    nlinarith
  rw [hfos]
  exact ne_of_lt hspec

/-- Claim C1 (amended).  For positive driving force the code returns the
closed-form quotient with the effective normal stress floored at 0 and the
result capped at 10; for non-positive driving force it returns the sentinel
10.0; at the spec's golden input neither clamp binds, so the returned FoS
equals the spec's closed-form value exactly. -/
theorem infiniteSlope_fos_spec :
    (∀ p : ISParams, 0 < driving p →
      (infiniteSlope p).fos =
        min ((cEff p + max 0 (sigmaN p - poreU p) * tanDeg p.frictionAngle) /
          driving p) 10) ∧
    (∀ p : ISParams, driving p ≤ 0 → (infiniteSlope p).fos = 10) ∧
    (infiniteSlope goldenParams).fos = specInfFoS goldenParams := by
  refine ⟨fun p hp => ?_, fun p hp => ?_, ?_⟩
  · show min (if driving p ≤ 0 then (10:ℝ) else resisting p / driving p) 10 = _
    rw [if_neg (not_le.mpr hp)]
    rfl
  · show min (if driving p ≤ 0 then (10:ℝ) else resisting p / driving p) 10 = 10
    rw [if_pos hp, min_self]
  · -- at the golden input both clamps are inactive
    have hs : 0 < sinDeg 35 := sinDeg_pos (by norm_num) (by norm_num)
    have hc : 0 < cosDeg 35 := cosDeg_pos (by norm_num) (by norm_num)
    have hc1 : cosDeg 35 ≤ 1 := Real.cos_le_one _
    have ht : 0 ≤ tanDeg 28 := tanDeg_nonneg (by norm_num) (by norm_num)
    have ht1 : tanDeg 28 ≤ 1 := by
      have h := Real.tan_lt_tan_of_nonneg_of_lt_pi_div_two
        (degToRad_nonneg (d := 28) (by norm_num))
        (y := π / 4) (by have := Real.pi_pos; linarith)
        (by unfold degToRad; have := Real.pi_pos; nlinarith)
      rw [Real.tan_pi_div_four] at h
      unfold tanDeg
      linarith
    have hsc : (0.35 : ℝ) ≤ sinDeg 35 * cosDeg 35 := sc35_lower
    have hdrv : driving goldenParams = 92.5 * (sinDeg 35 * cosDeg 35) := by
      unfold driving goldenParams
      norm_num; ring
    have hpos : 0 < driving goldenParams := by rw [hdrv]; positivity
    have hd : sigmaN goldenParams - poreU goldenParams =
        67.975 * cosDeg 35 ^ 2 := by
      unfold sigmaN poreU hwOf WATER_DENSITY goldenParams
      norm_num; ring
    have hspr : sigmaPrime goldenParams = sigmaN goldenParams - poreU goldenParams := by
      unfold sigmaPrime
      rw [max_eq_right]
      rw [hd]
      positivity
    have hcE : cEff goldenParams = 8 := by unfold cEff goldenParams; norm_num
    have hfa : goldenParams.frictionAngle = 28 := rfl
    have hresle : resisting goldenParams ≤ 10 * driving goldenParams := by
      unfold resisting
      rw [hspr, hcE, hfa, hd, hdrv]
      nlinarith
    have : (infiniteSlope goldenParams).fos =
        resisting goldenParams / driving goldenParams := by
      show min (if driving goldenParams ≤ 0 then (10:ℝ)
          else resisting goldenParams / driving goldenParams) 10 = _
      rw [if_neg (not_le.mpr hpos)]
      exact min_eq_left ((div_le_iff₀ hpos).mpr (by linarith))
    rw [this]
    unfold specInfFoS resisting
    rw [hspr]

/-- Witness for C1: the general clamped formula applied at the golden input,
whose driving force is positive. -/
theorem infiniteSlope_fos_spec_witness :
    0 < driving goldenParams ∧
    (infiniteSlope goldenParams).fos =
      min ((cEff goldenParams +
        max 0 (sigmaN goldenParams - poreU goldenParams) *
          tanDeg goldenParams.frictionAngle) / driving goldenParams) 10 := by
  have hs : 0 < sinDeg 35 := sinDeg_pos (by norm_num) (by norm_num)
  have hc : 0 < cosDeg 35 := cosDeg_pos (by norm_num) (by norm_num)
  have hdrv : driving goldenParams = 92.5 * (sinDeg 35 * cosDeg 35) := by
    unfold driving goldenParams
    norm_num; ring
  have hpos : 0 < driving goldenParams := by rw [hdrv]; positivity
  exact ⟨hpos, infiniteSlope_fos_spec.1 goldenParams hpos⟩

/-! ### C2: slope-angle monotonicity of the Infinite Slope FoS -/

/-- A family of inputs that fixes cohesion 5 kPa, friction 0°, unit weight
19 kN/m³, depth 5 m and saturation 0 %, varying only the slope angle. -/
def steepParams (β : ℝ) : ISParams := ⟨5, 0, β, 19, 5, 0, 0, 0, 0⟩

lemma steep_resisting (β : ℝ) : resisting (steepParams β) = 5 := by
  unfold resisting cEff sigmaPrime steepParams tanDeg degToRad
  norm_num [Real.tan_zero]

/-- Claim C2 counterexample.  With cohesion 5, friction 0°, unit weight 19,
depth 5 and saturation 0 all fixed, raising the slope angle from 45° to 60°
strictly *increases* the returned FoS (2/19 at 45° versus 4/(19·√3) at 60°),
so the FoS is not non-increasing in the slope angle across (0°, 90°). -/
theorem infiniteSlope_not_antitone :
    (infiniteSlope (steepParams 45)).fos < (infiniteSlope (steepParams 60)).fos := by
  have h3 := sqrt_three_bounds
  have hsq3 : Real.sqrt 3 ^ 2 = 3 := Real.sq_sqrt (by norm_num)
  have hd45 : degToRad 45 = π / 4 := by unfold degToRad; ring
  have hd60 : degToRad 60 = π / 3 := by unfold degToRad; ring
  have hdrv45 : driving (steepParams 45) = 47.5 := by
    unfold driving steepParams sinDeg cosDeg
    rw [hd45, Real.sin_pi_div_four, Real.cos_pi_div_four]
    have : Real.sqrt 2 ^ 2 = 2 := Real.sq_sqrt (by norm_num)
    nlinarith
  have hdrv60 : driving (steepParams 60) = 95 * Real.sqrt 3 / 4 := by
    unfold driving steepParams sinDeg cosDeg
    rw [hd60, Real.sin_pi_div_three, Real.cos_pi_div_three]
    ring
  have hfos45 : (infiniteSlope (steepParams 45)).fos = 5 / 47.5 := by
    show min (if driving (steepParams 45) ≤ 0 then (10:ℝ)
        else resisting (steepParams 45) / driving (steepParams 45)) 10 = _
    rw [if_neg (by rw [hdrv45]; norm_num), steep_resisting, hdrv45]
    exact min_eq_left (by norm_num)
  have hdrv60pos : (0:ℝ) < 95 * Real.sqrt 3 / 4 := by nlinarith
  have hfos60 : (infiniteSlope (steepParams 60)).fos = 5 / (95 * Real.sqrt 3 / 4) := by
    show min (if driving (steepParams 60) ≤ 0 then (10:ℝ)
        else resisting (steepParams 60) / driving (steepParams 60)) 10 = _
    rw [if_neg (by rw [hdrv60]; exact not_le.mpr hdrv60pos), steep_resisting, hdrv60]
    refine min_eq_left ?_
    rw [div_le_iff₀ hdrv60pos]
    nlinarith
  rw [hfos45, hfos60]
  apply div_lt_div_of_pos_left (by norm_num) hdrv60pos
  nlinarith

/-- If the driving force is positive, the `driving <= 0` branch is dead and
the returned FoS is the capped quotient. -/
lemma infiniteSlope_fos_of_driving_pos (p : ISParams) (h : 0 < driving p) :
    (infiniteSlope p).fos = min (resisting p / driving p) 10 := by
  show min (if driving p ≤ 0 then (10:ℝ) else resisting p / driving p) 10 = _
  rw [if_neg (not_le.mpr h)]

lemma resisting_slope_eq (p : ISParams) (β : ℝ) :
    resisting { p with slopeAngle := β } =
      cEff p +
        max 0 ((p.unitWeight * p.depth - WATER_DENSITY * hwOf p) * cosDeg β ^ 2) *
          tanDeg p.frictionAngle := by
  have h : sigmaN { p with slopeAngle := β } - poreU { p with slopeAngle := β } =
      (p.unitWeight * p.depth - WATER_DENSITY * hwOf p) * cosDeg β ^ 2 := by
    unfold sigmaN poreU hwOf
    ring
  show cEff p +
      max 0 (sigmaN { p with slopeAngle := β } - poreU { p with slopeAngle := β }) *
        tanDeg p.frictionAngle = _
  rw [h]

lemma driving_slope_eq (p : ISParams) (β : ℝ) :
    driving { p with slopeAngle := β } =
      p.unitWeight * p.depth * (sinDeg β * cosDeg β) := by
  show p.unitWeight * p.depth * sinDeg β * cosDeg β = _
  ring

/-- Claim C2 (amended).  The returned FoS is non-increasing in the slope
angle on the interval (0°, 45°] (for non-negative cohesion, vegetation and
structural bonuses, crack reduction ≤ 1, friction angle in [0°, 90°], and
positive unit weight and depth).  Beyond 45° the driving term
`γ·z·sinβ·cosβ` decreases again, and the FoS can increase (see the
counterexample at 45° → 60°). -/
theorem infiniteSlope_fos_antitone_upto45 (p : ISParams) (β₁ β₂ : ℝ)
    (h0 : 0 < β₁) (h12 : β₁ ≤ β₂) (h45 : β₂ ≤ 45)
    (hco : 0 ≤ p.cohesion) (hcr : p.crackReduction ≤ 1)
    (hrc : 0 ≤ p.rootCohesion) (hsa : 0 ≤ p.structuralAdd)
    (hf0 : 0 ≤ p.frictionAngle) (hf1 : p.frictionAngle ≤ 90)
    (hγ : 0 < p.unitWeight) (hz : 0 < p.depth) :
    (infiniteSlope { p with slopeAngle := β₂ }).fos ≤
      (infiniteSlope { p with slopeAngle := β₁ }).fos := by
  -- trigonometric comparisons
  have hcos2 : 0 ≤ cosDeg β₂ := cosDeg_nonneg (by linarith) (by linarith)
  have hcosle : cosDeg β₂ ≤ cosDeg β₁ := by
    unfold cosDeg
    refine Real.cos_le_cos_of_nonneg_of_le_pi (degToRad_nonneg (by linarith)) ?_
      (degToRad_le_degToRad h12)
    have h := degToRad_le_pi_div_two (d := β₂) (by linarith)
    have := Real.pi_pos
    linarith
  have hsin1pos : 0 < sinDeg β₁ := sinDeg_pos h0 (by linarith)
  have hcos1pos : 0 < cosDeg β₁ := cosDeg_pos (by linarith) (by linarith)
  have hscle : sinDeg β₁ * cosDeg β₁ ≤ sinDeg β₂ * cosDeg β₂ := by
    rw [sinDeg_mul_cosDeg, sinDeg_mul_cosDeg]
    have hmono : Real.sin (degToRad (2 * β₁)) ≤ Real.sin (degToRad (2 * β₂)) := by
      refine Real.sin_le_sin_of_le_of_le_pi_div_two ?_ ?_ ?_
      · have := degToRad_nonneg (d := 2 * β₁) (by linarith)
        have := Real.pi_pos
        linarith
      · exact degToRad_le_pi_div_two (by linarith)
      · exact degToRad_le_degToRad (by linarith)
    linarith
  -- driving force: positive at β₁ and monotone up to 45°
  have hγz : (0:ℝ) < p.unitWeight * p.depth := by positivity
  have hdrv1 : 0 < driving { p with slopeAngle := β₁ } := by
    rw [driving_slope_eq]
    positivity
  have hdrvle : driving { p with slopeAngle := β₁ } ≤
      driving { p with slopeAngle := β₂ } := by
    rw [driving_slope_eq, driving_slope_eq]
    exact mul_le_mul_of_nonneg_left hscle hγz.le
  -- resisting force: non-negative and antitone
  have hcE : 0 ≤ cEff p := by
    have h := mul_nonneg hco (by linarith : (0:ℝ) ≤ 1 - p.crackReduction)
    unfold cEff
    linarith
  have htan : 0 ≤ tanDeg p.frictionAngle := tanDeg_nonneg hf0 hf1
  have hsqle : cosDeg β₂ ^ 2 ≤ cosDeg β₁ ^ 2 := by nlinarith
  have hmaxle :
      max 0 ((p.unitWeight * p.depth - WATER_DENSITY * hwOf p) * cosDeg β₂ ^ 2) ≤
        max 0 ((p.unitWeight * p.depth - WATER_DENSITY * hwOf p) * cosDeg β₁ ^ 2) := by
    rcases le_total (p.unitWeight * p.depth - WATER_DENSITY * hwOf p) 0 with hA0 | hA0
    · rw [max_eq_left (by nlinarith), max_eq_left (by nlinarith)]
    · exact max_le_max le_rfl (mul_le_mul_of_nonneg_left hsqle hA0)
  have hresle : resisting { p with slopeAngle := β₂ } ≤
      resisting { p with slopeAngle := β₁ } := by
    rw [resisting_slope_eq, resisting_slope_eq]
    have := mul_le_mul_of_nonneg_right hmaxle htan
    linarith
  have hresnn : 0 ≤ resisting { p with slopeAngle := β₂ } := by
    rw [resisting_slope_eq]
    have h0m : (0:ℝ) ≤
        max 0 ((p.unitWeight * p.depth - WATER_DENSITY * hwOf p) * cosDeg β₂ ^ 2) :=
      le_max_left 0 _
    nlinarith
  have hresnn₁ : 0 ≤ resisting { p with slopeAngle := β₁ } := le_trans hresnn hresle
  -- now assemble the two FoS values
  have hdrv2 : 0 < driving { p with slopeAngle := β₂ } := lt_of_lt_of_le hdrv1 hdrvle
  rw [infiniteSlope_fos_of_driving_pos _ hdrv1, infiniteSlope_fos_of_driving_pos _ hdrv2]
  exact min_le_min (div_le_div hresnn₁ hresle hdrv1 hdrvle) le_rfl

/-- Witness for C2 (amended): the antitone theorem applied with slope angles
20° ≤ 30° and the engine's default soil parameters. -/
theorem infiniteSlope_fos_antitone_upto45_witness :
    (infiniteSlope ⟨5, 30, 30, 19, 5, 50, 0, 0, 0⟩).fos ≤
      (infiniteSlope ⟨5, 30, 20, 19, 5, 50, 0, 0, 0⟩).fos := by
  have h := infiniteSlope_fos_antitone_upto45 ⟨5, 30, 0, 19, 5, 50, 0, 0, 0⟩
    20 30 (by norm_num) (by norm_num) (by norm_num) (by norm_num) (by norm_num)
    (by norm_num) (by norm_num) (by norm_num) (by norm_num) (by norm_num)
    (by norm_num)
  exact h

/-! ## B. Simplified Bishop Method (`bishopSimplified`) -/

/-- A slice record as consumed by the slice-based solvers (the source also
carries a cosmetic `id`, unused by any computation). -/
structure Slice where
  width : ℝ
  alpha : ℝ
  weight : ℝ
  cohesion : ℝ
  phi : ℝ
  pore_pressure : ℝ

/-- `m_alpha = cos α + (sin α · tan φ) / fos_prev` for one slice. -/
def mAlpha (sl : Slice) (f : ℝ) : ℝ :=
  cosDeg sl.alpha + sinDeg sl.alpha * tanDeg sl.phi / f

/-- One pass of the Bishop inner loop: accumulate numerator and denominator
over the slices, skipping a slice entirely (`continue`) when
`|m_alpha| < 0.001`. -/
def bishopSums (s : List Slice) (f : ℝ) : ℝ × ℝ :=
  s.foldl (fun acc sl =>
    if |mAlpha sl f| < 0.001 then acc
    else
      (acc.1 + (sl.cohesion * sl.width +
          (sl.weight - sl.pore_pressure * sl.width) * tanDeg sl.phi) / mAlpha sl f,
       acc.2 + sl.weight * sinDeg sl.alpha)) (0, 0)

/-- `fos_new = denominator === 0 ? 10.0 : numerator / denominator`. -/
def bishopStep (s : List Slice) (f : ℝ) : ℝ :=
  if (bishopSums s f).2 = 0 then 10 else (bishopSums s f).1 / (bishopSums s f).2

/-- Result record of `bishopSimplified` (constant `method` string omitted). -/
structure BishopResult where
  fos : ℝ
  iterations : ℕ
  converged : Bool

/-- The outer iteration loop of `bishopSimplified`: `fuel` remaining loop
passes, `f` the current `fos_prev`, `it` the number of passes already done.
On each pass it computes `fos_new`, stops with `converged = true` when
`|fos_new - fos_prev| < 0.001`, and otherwise continues from `fos_new`. -/
def bishopIter (s : List Slice) : ℕ → ℝ → ℕ → BishopResult
  | 0, f, it => ⟨f, it, false⟩
  | fuel + 1, f, it =>
    if |bishopStep s f - f| < 0.001 then ⟨bishopStep s f, it + 1, true⟩
    else bishopIter s fuel (bishopStep s f) (it + 1)

/-- `bishopSimplified(slices, maxIter = 50)`: iterate from the initial guess
`fos_prev = 1.5`. -/
def bishopSimplified (s : List Slice) (maxIter : ℕ) : BishopResult :=
  bishopIter s maxIter 1.5 0

lemma bishopIter_false (s : List Slice) (fuel : ℕ) :
    ∀ f it, (bishopIter s fuel f it).converged = false →
      (bishopIter s fuel f it).fos = (bishopStep s)^[fuel] f ∧
        (bishopIter s fuel f it).iterations = it + fuel := by
  induction fuel with
  | zero => intro f it _; exact ⟨rfl, rfl⟩
  | succ n ih =>
    intro f it h
    rw [bishopIter] at h ⊢
    by_cases hc : |bishopStep s f - f| < 0.001
    · rw [if_pos hc] at h
      exact absurd h (by simp)
    · rw [if_neg hc] at h ⊢
      obtain ⟨h1, h2⟩ := ih (bishopStep s f) (it + 1) h
      refine ⟨?_, ?_⟩
      · rw [h1, ← Function.iterate_succ_apply]
      · rw [h2]; omega

lemma bishopIter_true (s : List Slice) (fuel : ℕ) :
    ∀ f it, (bishopIter s fuel f it).converged = true →
      ∃ n, 1 ≤ n ∧ n ≤ fuel ∧
        (bishopIter s fuel f it).iterations = it + n ∧
        (bishopIter s fuel f it).fos = (bishopStep s)^[n] f ∧
        |(bishopStep s)^[n] f - (bishopStep s)^[n - 1] f| < 0.001 := by
  induction fuel with
  | zero => intro f it h; exact absurd h (by simp [bishopIter])
  | succ m ih =>
    intro f it h
    rw [bishopIter] at h ⊢
    by_cases hc : |bishopStep s f - f| < 0.001
    · rw [if_pos hc] at h ⊢
      exact ⟨1, le_rfl, by omega, rfl, by simpa using hc⟩
    · rw [if_neg hc] at h ⊢
      obtain ⟨n, hn1, hnm, hit, hfos, hlt⟩ := ih (bishopStep s f) (it + 1) h
      refine ⟨n + 1, by omega, by omega, by rw [hit]; omega, ?_, ?_⟩
      · rw [hfos, ← Function.iterate_succ_apply]
      · rw [← Function.iterate_succ_apply (bishopStep s) n f] at hlt
        rw [← Function.iterate_succ_apply (bishopStep s) (n - 1) f] at hlt
        have hpred : n - 1 + 1 = n := Nat.succ_pred_eq_of_pos hn1
        simp only [Nat.succ_eq_add_one, hpred] at hlt
        simpa [Nat.add_sub_cancel] using hlt

lemma bishopSums_no_skip (f : ℝ) :
    ∀ (s : List Slice) (a b : ℝ), (∀ sl ∈ s, ¬(|mAlpha sl f| < 0.001)) →
      s.foldl (fun acc sl =>
        if |mAlpha sl f| < 0.001 then acc
        else
          (acc.1 + (sl.cohesion * sl.width +
              (sl.weight - sl.pore_pressure * sl.width) * tanDeg sl.phi) / mAlpha sl f,
           acc.2 + sl.weight * sinDeg sl.alpha)) (a, b) =
      (a + (s.map (fun sl =>
          (sl.cohesion * sl.width +
            (sl.weight - sl.pore_pressure * sl.width) * tanDeg sl.phi) /
          mAlpha sl f)).sum,
       b + (s.map (fun sl => sl.weight * sinDeg sl.alpha)).sum) := by
  intro s
  induction s with
  | nil => intro a b _; simp
  | cons hd tl ih =>
    intro a b h
    rw [List.foldl_cons, if_neg (h hd (List.mem_cons_self hd tl))]
    rw [ih _ _ (fun sl hsl => h sl (List.mem_cons_of_mem hd hsl))]
    simp only [List.map_cons, List.sum_cons, Prod.mk.injEq]
    constructor <;> ring

/-- Claim C3.  `bishopSimplified` with the default 50-iteration budget:
(i) on convergence it stopped at some pass `n ≤ 50` whose update moved the
iterate of the initial guess 1.5 by less than 0.001, and reports that
iterate and pass count; (ii) on non-convergence it still returns the 50th
iterate (a real number — no failure), with `converged = false` and the full
iteration count; (iii) whenever no slice is degenerate (`|mα| ≥ 0.001`) and
the denominator is non-zero, one update step is exactly the spec's
fixed-point formula `Σ[(c'·b + (W−u·b)·tanφ')/mα] / Σ[W·sinα]`. -/
theorem bishopSimplified_spec (s : List Slice) :
    ((bishopSimplified s 50).converged = true →
      ∃ n, 1 ≤ n ∧ n ≤ 50 ∧ (bishopSimplified s 50).iterations = n ∧
        (bishopSimplified s 50).fos = (bishopStep s)^[n] 1.5 ∧
        |(bishopStep s)^[n] 1.5 - (bishopStep s)^[n - 1] 1.5| < 0.001) ∧
    ((bishopSimplified s 50).converged = false →
      (bishopSimplified s 50).iterations = 50 ∧
      (bishopSimplified s 50).fos = (bishopStep s)^[50] 1.5) ∧
    (∀ f : ℝ, (∀ sl ∈ s, ¬(|mAlpha sl f| < 0.001)) →
      (s.map (fun sl => sl.weight * sinDeg sl.alpha)).sum ≠ 0 →
      bishopStep s f =
        (s.map (fun sl =>
          (sl.cohesion * sl.width +
            (sl.weight - sl.pore_pressure * sl.width) * tanDeg sl.phi) /
          mAlpha sl f)).sum /
        (s.map (fun sl => sl.weight * sinDeg sl.alpha)).sum) := by
  refine ⟨?_, ?_, ?_⟩
  · intro h
    obtain ⟨n, hn1, hn50, hit, hfos, hlt⟩ := bishopIter_true s 50 1.5 0 h
    exact ⟨n, hn1, hn50, by simpa using hit, hfos, hlt⟩
  · intro h
    obtain ⟨h1, h2⟩ := bishopIter_false s 50 1.5 0 h
    exact ⟨by simpa using h2, h1⟩
  · intro f hkeep hden
    have hsums : bishopSums s f =
        ((s.map (fun sl =>
          (sl.cohesion * sl.width +
            (sl.weight - sl.pore_pressure * sl.width) * tanDeg sl.phi) /
          mAlpha sl f)).sum,
         (s.map (fun sl => sl.weight * sinDeg sl.alpha)).sum) := by
      unfold bishopSums
      rw [bishopSums_no_skip f s 0 0 hkeep]
      simp
    unfold bishopStep
    rw [hsums, if_neg hden]

/-- A single non-degenerate slice with exact trigonometry: α = 45°, φ = 0°,
unit width, weight and cohesion, zero pore pressure. -/
def witnessSlice : Slice := ⟨1, 45, 1, 1, 0, 0⟩

lemma tanDeg_zero : tanDeg 0 = 0 := by
  unfold tanDeg degToRad
  simp

lemma cosDeg_45 : cosDeg 45 = Real.sqrt 2 / 2 := by
  unfold cosDeg
  rw [show degToRad 45 = π / 4 by unfold degToRad; ring, Real.cos_pi_div_four]

lemma sinDeg_45 : sinDeg 45 = Real.sqrt 2 / 2 := by
  unfold sinDeg
  rw [show degToRad 45 = π / 4 by unfold degToRad; ring, Real.sin_pi_div_four]

lemma mAlpha_witnessSlice (f : ℝ) : mAlpha witnessSlice f = Real.sqrt 2 / 2 := by
  unfold mAlpha witnessSlice
  simp [tanDeg_zero, cosDeg_45]

/-- Witness for C3: the fixed-point-formula clause of the theorem applied to
a concrete single-slice system at `fos_prev = 1.5`. -/
theorem bishopSimplified_spec_witness :
    bishopStep [witnessSlice] 1.5 =
      ([witnessSlice].map (fun sl =>
        (sl.cohesion * sl.width +
          (sl.weight - sl.pore_pressure * sl.width) * tanDeg sl.phi) /
        mAlpha sl 1.5)).sum /
      ([witnessSlice].map (fun sl => sl.weight * sinDeg sl.alpha)).sum := by
  have h2 := sqrt_two_lower
  refine (bishopSimplified_spec [witnessSlice]).2.2 1.5 ?_ ?_
  · intro sl hsl
    rw [List.mem_singleton] at hsl
    subst hsl
    rw [mAlpha_witnessSlice]
    rw [abs_of_nonneg (by positivity)]
    intro hlt
    linarith
  · simp only [List.map_cons, List.map_nil, List.sum_cons, List.sum_nil]
    show ¬(witnessSlice.weight * sinDeg witnessSlice.alpha + 0 = 0)
    have : witnessSlice.weight * sinDeg witnessSlice.alpha = Real.sqrt 2 / 2 := by
      show 1 * sinDeg 45 = _
      rw [sinDeg_45, one_mul]
    rw [this]
    intro h
    linarith

/-! ## F. Monte Carlo stochastic simulation (`monteCarloSimulation`)

`normalRandom(mean, stddev)` draws `mean + z * stddev` where
`z = sqrt(-2 ln u1) * cos(2 pi u2)` is a Box–Muller variate of two
`Math.random()` values.  The four z-scores of one iteration are supplied
explicitly as a `ZDraw`, and a whole simulation consumes a stream
`ℕ → ZDraw`; `z` ranges over all of `ℝ` (as does the Box–Muller expression,
for suitable `u1`, `u2`). -/

/-- The six mean-value parameters destructured by `monteCarloSimulation`
(defaults `5, 30, 35, 19, 50, DEFAULT_DEPTH`). -/
structure MCParams where
  cohesion : ℝ
  frictionAngle : ℝ
  slopeAngle : ℝ
  unitWeight : ℝ
  saturation : ℝ
  depth : ℝ

/-- The four Box–Muller z-scores consumed by one Monte Carlo iteration, in
source order: cohesion, friction angle, unit weight, slope angle. -/
structure ZDraw where
  z1 : ℝ
  z2 : ℝ
  z3 : ℝ
  z4 : ℝ

/-- One iteration's sampled parameter set:
`c_i = max(0.1, normalRandom(c, c*0.3))`,
`phi_i = max(5, normalRandom(phi, phi*0.1))`,
`gamma_i = normalRandom(gamma, gamma*0.05)` (no clamp in the source),
`slope_i = max(5, normalRandom(slope, 2.0))`;
the remaining `infiniteSlope` fields take their defaults. -/
def mcDrawParams (p : MCParams) (z : ZDraw) : ISParams :=
  ⟨max 0.1 (p.cohesion + z.z1 * (p.cohesion * 0.3)),
   max 5 (p.frictionAngle + z.z2 * (p.frictionAngle * 0.1)),
   max 5 (p.slopeAngle + z.z4 * 2),
   p.unitWeight + z.z3 * (p.unitWeight * 0.05),
   p.depth, p.saturation, 0, 0, 0⟩

/-- The `fosResults` array: one Infinite Slope FoS per iteration. -/
def mcFosList (p : MCParams) (zs : ℕ → ZDraw) (n : ℕ) : List ℝ :=
  (List.range n).map (fun i => (infiniteSlope (mcDrawParams p (zs i))).fos)

/-- `Math.min(...xs)` over a non-empty spread; the `[]` case (JS `Infinity`)
is given an arbitrary sentinel and is never relied upon below. -/
def listMin : List ℝ → ℝ
  | [] => 0
  | x :: xs => xs.foldl min x

/-- `Math.max(...xs)` over a non-empty spread; same remark as `listMin`. -/
def listMax : List ℝ → ℝ
  | [] => 0
  | x :: xs => xs.foldl max x

/-- Summary record of `monteCarloSimulation`.  The 40-bin histogram and its
edges, used only for charting and not mentioned by any claim, are omitted;
the constant `method` string likewise. -/
structure MCResult where
  mean_fos : ℝ
  std_fos : ℝ
  min_fos : ℝ
  max_fos : ℝ
  probability_of_failure : ℝ
  reliability_index : ℝ
  iterations : ℕ
  rawResults : List ℝ

/-- `monteCarloSimulation(params, iterations)`.  The source body contains no
input validation and no throw path — it always falls through to the summary
object — so the embedding is a total function. -/
def monteCarloSimulation (p : MCParams) (zs : ℕ → ZDraw) (iterations : ℕ) :
    MCResult :=
  let l := mcFosList p zs iterations
  let failureCount := l.countP (fun f => decide (f < 1))
  let mean := l.foldl (· + ·) 0 / (iterations : ℝ)
  let std := Real.sqrt
    (l.foldl (fun acc f => acc + (f - mean) ^ 2) 0 / ((iterations : ℝ) - 1))
  let pf := (failureCount : ℝ) / (iterations : ℝ) * 100
  ⟨mean, std, listMin l, listMax l, pf,
   if 0 < std then (mean - 1) / std else 99, iterations, l⟩

lemma foldl_add_eq_sum : ∀ (l : List ℝ) (a : ℝ), l.foldl (· + ·) a = a + l.sum
  | [], a => by simp
  | x :: xs, a => by
    rw [List.foldl_cons, foldl_add_eq_sum xs (a + x), List.sum_cons]
    ring

lemma foldl_add_map_eq_sum (g : ℝ → ℝ) :
    ∀ (l : List ℝ) (a : ℝ),
      l.foldl (fun acc f => acc + g f) a = a + (l.map g).sum
  | [], a => by simp
  | x :: xs, a => by
    rw [List.foldl_cons, foldl_add_map_eq_sum g xs (a + g x), List.map_cons,
      List.sum_cons]
    ring

lemma foldl_min_mem : ∀ (xs : List ℝ) (x : ℝ), xs.foldl min x ∈ x :: xs
  | [], x => by simp
  | y :: ys, x => by
    rw [List.foldl_cons]
    have h := foldl_min_mem ys (min x y)
    rcases List.mem_cons.mp h with h | h
    · rcases min_choice x y with hm | hm
      · rw [h, hm]; exact List.mem_cons_self _ _
      · rw [h, hm]; exact List.mem_cons_of_mem _ (List.mem_cons_self _ _)
    · exact List.mem_cons_of_mem _ (List.mem_cons_of_mem _ h)

lemma foldl_min_le : ∀ (xs : List ℝ) (x : ℝ),
    xs.foldl min x ≤ x ∧ ∀ z ∈ xs, xs.foldl min x ≤ z
  | [], x => ⟨le_rfl, by simp⟩
  | y :: ys, x => by
    rw [List.foldl_cons]
    obtain ⟨h1, h2⟩ := foldl_min_le ys (min x y)
    refine ⟨le_trans h1 (min_le_left _ _), ?_⟩
    intro z hz
    rcases List.mem_cons.mp hz with rfl | hz
    · exact le_trans h1 (min_le_right _ _)
    · exact h2 z hz

lemma foldl_max_mem : ∀ (xs : List ℝ) (x : ℝ), xs.foldl max x ∈ x :: xs
  | [], x => by simp
  | y :: ys, x => by
    rw [List.foldl_cons]
    have h := foldl_max_mem ys (max x y)
    rcases List.mem_cons.mp h with h | h
    · rcases max_choice x y with hm | hm
      · rw [h, hm]; exact List.mem_cons_self _ _
      · rw [h, hm]; exact List.mem_cons_of_mem _ (List.mem_cons_self _ _)
    · exact List.mem_cons_of_mem _ (List.mem_cons_of_mem _ h)

lemma foldl_max_le : ∀ (xs : List ℝ) (x : ℝ),
    x ≤ xs.foldl max x ∧ ∀ z ∈ xs, z ≤ xs.foldl max x
  | [], x => ⟨le_rfl, by simp⟩
  | y :: ys, x => by
    rw [List.foldl_cons]
    obtain ⟨h1, h2⟩ := foldl_max_le ys (max x y)
    refine ⟨le_trans (le_max_left _ _) h1, ?_⟩
    intro z hz
    rcases List.mem_cons.mp hz with rfl | hz
    · exact le_trans (le_max_right _ _) h1
    · exact h2 z hz

lemma listMin_spec (l : List ℝ) (h : l ≠ []) :
    listMin l ∈ l ∧ ∀ x ∈ l, listMin l ≤ x := by
  match l with
  | [] => exact absurd rfl h
  | x :: xs =>
    refine ⟨foldl_min_mem xs x, ?_⟩
    intro z hz
    rcases List.mem_cons.mp hz with rfl | hz
    · exact (foldl_min_le xs z).1
    · exact (foldl_min_le xs x).2 z hz

lemma listMax_spec (l : List ℝ) (h : l ≠ []) :
    listMax l ∈ l ∧ ∀ x ∈ l, x ≤ listMax l := by
  match l with
  | [] => exact absurd rfl h
  | x :: xs =>
    refine ⟨foldl_max_mem xs x, ?_⟩
    intro z hz
    rcases List.mem_cons.mp hz with rfl | hz
    · exact (foldl_max_le xs z).1
    · exact (foldl_max_le xs x).2 z hz

/-- The default mean-value parameter set of the engine
(`cohesion 5, friction 30°, slope 35°, unit weight 19, saturation 50 %,
depth 5 m`). -/
def mcDefaultParams : MCParams := ⟨5, 30, 35, 19, 50, 5⟩

/-- Claim C4 counterexample.  With the default means and the (achievable)
Box–Muller z-score −30 for the unit-weight draw, the sampled unit weight is
19 + (−30)·(0.05·19) = −9.5: it is *not* clamped to any physically valid
floor, and this negative unit weight is exactly what iteration 0 feeds into
`infiniteSlope` (unlike cohesion, friction angle and slope angle, which are
floored at 0.1, 5 and 5). -/
theorem monteCarlo_unitWeight_not_clamped :
    (mcDrawParams mcDefaultParams ⟨0, 0, -30, 0⟩).unitWeight < 0 ∧
    (monteCarloSimulation mcDefaultParams (fun _ => ⟨0, 0, -30, 0⟩) 1).rawResults =
      [(infiniteSlope (mcDrawParams mcDefaultParams ⟨0, 0, -30, 0⟩)).fos] := by
  constructor
  · show (19 : ℝ) + (-30) * (19 * 0.05) < 0
    norm_num
  · show mcFosList mcDefaultParams (fun _ => ⟨0, 0, -30, 0⟩) 1 = _
    unfold mcFosList
    rfl

/-- Claim C4 (amended).  Per iteration the sampled cohesion, friction angle
and slope angle are floored at 0.1, 5 and 5 respectively, while the sampled
unit weight is used unclamped; the summary reports the mean `Σfos/n`, the
sample standard deviation with n−1 denominator, the minimum and maximum of
the FoS sample, the probability of failure as the percentage
`100·#{fos < 1}/n`, and, whenever the standard deviation is positive, the
reliability index `(mean − 1)/std`. -/
theorem monteCarlo_summary_spec (p : MCParams) (zs : ℕ → ZDraw) (n : ℕ)
    (hn : 1 ≤ n) :
    (monteCarloSimulation p zs n).iterations = n ∧
    (monteCarloSimulation p zs n).rawResults = mcFosList p zs n ∧
    (∀ z : ZDraw,
      (mcDrawParams p z).cohesion = max 0.1 (p.cohesion + z.z1 * (p.cohesion * 0.3)) ∧
      (mcDrawParams p z).frictionAngle =
        max 5 (p.frictionAngle + z.z2 * (p.frictionAngle * 0.1)) ∧
      (mcDrawParams p z).slopeAngle = max 5 (p.slopeAngle + z.z4 * 2) ∧
      (mcDrawParams p z).unitWeight = p.unitWeight + z.z3 * (p.unitWeight * 0.05)) ∧
    (monteCarloSimulation p zs n).mean_fos = (mcFosList p zs n).sum / n ∧
    (monteCarloSimulation p zs n).std_fos =
      Real.sqrt
        (((mcFosList p zs n).map
          (fun f => (f - (mcFosList p zs n).sum / n) ^ 2)).sum / ((n : ℝ) - 1)) ∧
    ((monteCarloSimulation p zs n).min_fos ∈ mcFosList p zs n ∧
      ∀ x ∈ mcFosList p zs n, (monteCarloSimulation p zs n).min_fos ≤ x) ∧
    ((monteCarloSimulation p zs n).max_fos ∈ mcFosList p zs n ∧
      ∀ x ∈ mcFosList p zs n, x ≤ (monteCarloSimulation p zs n).max_fos) ∧
    (monteCarloSimulation p zs n).probability_of_failure =
      100 * (((mcFosList p zs n).filter (fun f => decide (f < 1))).length : ℝ) / n ∧
    (0 < (monteCarloSimulation p zs n).std_fos →
      (monteCarloSimulation p zs n).reliability_index =
        ((monteCarloSimulation p zs n).mean_fos - 1) /
          (monteCarloSimulation p zs n).std_fos) := by
  have hne : mcFosList p zs n ≠ [] := by
    have : (mcFosList p zs n).length = n := by
      unfold mcFosList
      simp
    intro hcon
    rw [hcon] at this
    simp at this
    omega
  have hmean : (monteCarloSimulation p zs n).mean_fos = (mcFosList p zs n).sum / n := by
    show (mcFosList p zs n).foldl (· + ·) 0 / (n : ℝ) = _
    rw [foldl_add_eq_sum]
    ring_nf
  refine ⟨rfl, rfl, fun z => ⟨rfl, rfl, rfl, rfl⟩, hmean, ?_, ?_, ?_, ?_, ?_⟩
  · show Real.sqrt
        ((mcFosList p zs n).foldl
          (fun acc f =>
            acc + (f - (mcFosList p zs n).foldl (· + ·) 0 / (n : ℝ)) ^ 2) 0 /
          ((n : ℝ) - 1)) = _
    rw [foldl_add_map_eq_sum]
    simp only [foldl_add_eq_sum, zero_add]
  · exact listMin_spec _ hne
  · exact listMax_spec _ hne
  · show ((mcFosList p zs n).countP (fun f => decide (f < 1)) : ℝ) / (n : ℝ) * 100 = _
    rw [List.countP_eq_length_filter]
    ring
  · intro h
    show (if 0 < (monteCarloSimulation p zs n).std_fos then _ else (99:ℝ)) = _
    rw [if_pos h]
    rfl

/-- Witness for C4 (amended): the summary theorem applied to a two-iteration
run at the default parameters with the all-zero z-stream. -/
theorem monteCarlo_summary_spec_witness :
    (monteCarloSimulation mcDefaultParams (fun _ => ⟨0, 0, 0, 0⟩) 2).mean_fos =
      (mcFosList mcDefaultParams (fun _ => ⟨0, 0, 0, 0⟩) 2).sum / 2 := by
  have h := monteCarlo_summary_spec mcDefaultParams (fun _ => ⟨0, 0, 0, 0⟩) 2
    (by norm_num)
  exact_mod_cast h.2.2.2.1

/-- Claim C7.  Requesting a Monte Carlo run with iteration count 0 does not
fail in any way: the source has no validation and no throw path, and the
run returns an ordinary summary record with an empty sample (whose
statistics are then meaningless 0/0 divisions — `NaN` in JavaScript);
no `InvalidConfiguration` error kind exists anywhere in the code base. -/
theorem monteCarlo_zero_iterations_returns :
    (monteCarloSimulation mcDefaultParams (fun _ => ⟨0, 0, 0, 0⟩) 0).iterations = 0 ∧
    (monteCarloSimulation mcDefaultParams (fun _ => ⟨0, 0, 0, 0⟩) 0).rawResults = [] := by
  exact ⟨rfl, rfl⟩

/-! ## D. Rainfall intensity–duration threshold (`checkIDThreshold`) -/

/-- Result record of `checkIDThreshold`.  The `status` string of the source
is fully determined by `level` (0 = SAFE, 1 = CAUTION, 2 = WARNING,
3 = CRITICAL) and is therefore represented by `level` alone. -/
structure IDResult where
  threshold_caine : ℝ
  threshold_himalaya : ℝ
  current_intensity : ℝ
  current_duration : ℝ
  level : ℕ
  exceedance_pct_global : ℝ
  exceedance_pct_regional : ℝ

/-- `checkIDThreshold(intensity_mmhr, duration_hr)`:
`threshold_caine = 14.82 * D^(-0.39)` (Caine 1980, global),
`threshold_himalaya = 9.0 * D^(-0.25)` (regional); CRITICAL above the global
curve, WARNING above the regional curve, CAUTION above 70 % of the regional
curve, SAFE otherwise; exceedance percentages against both curves. -/
def checkIDThreshold (I D : ℝ) : IDResult :=
  let caine := 14.82 * D ^ (-0.39 : ℝ)
  let him := 9.0 * D ^ (-0.25 : ℝ)
  ⟨caine, him, I, D,
   if caine < I then 3 else if him < I then 2 else if him * 0.7 < I then 1 else 0,
   I / caine * 100, I / him * 100⟩

lemma rpow_quarter_72 : ((72 : ℝ) ^ (0.25 : ℝ)) ^ (4 : ℕ) = 72 := by
  rw [← Real.rpow_natCast ((72 : ℝ) ^ (0.25 : ℝ)) 4,
    ← Real.rpow_mul (by norm_num : (0:ℝ) ≤ 72)]
  norm_num

lemma rpow_39_72 : ((72 : ℝ) ^ (0.39 : ℝ)) ^ (100 : ℕ) = 72 ^ (39 : ℕ) := by
  rw [← Real.rpow_natCast ((72 : ℝ) ^ (0.39 : ℝ)) 100,
    ← Real.rpow_mul (by norm_num : (0:ℝ) ≤ 72)]
  have h : (0.39 : ℝ) * (100 : ℕ) = ((39 : ℕ) : ℝ) := by norm_num
  rw [h, Real.rpow_natCast]

lemma rpow_quarter_72_lt_3 : (72 : ℝ) ^ (0.25 : ℝ) < 3 := by
  refine lt_of_pow_lt_pow_left 4 (by norm_num : (0:ℝ) ≤ 3) ?_
  rw [rpow_quarter_72]
  norm_num

lemma rpow_quarter_72_gt : (2.1 : ℝ) < (72 : ℝ) ^ (0.25 : ℝ) := by
  refine lt_of_pow_lt_pow_left 4 (Real.rpow_nonneg (by norm_num) _) ?_
  rw [rpow_quarter_72]
  norm_num

lemma rpow_39_72_gt : (4.94 : ℝ) < (72 : ℝ) ^ (0.39 : ℝ) := by
  refine lt_of_pow_lt_pow_left 100 (Real.rpow_nonneg (by norm_num) _) ?_
  rw [rpow_39_72]
  norm_num

/-- Claim C6 counterexample.  At duration 72 h and intensity 3 mm/hr the
storm is *below* the regional threshold `9·72^(−0.25) ≈ 3.09` (inside the
claim's 70 %-of-regional caution band), yet the code classifies it at the
top level 3 (CRITICAL), because the critical level is decided by the
*global* Caine curve `14.82·72^(−0.39) ≈ 2.80`, which at long durations
falls below the regional curve.  The classification is therefore not a
function of the regional curve alone. -/
theorem checkIDThreshold_regional_cx :
    (checkIDThreshold 3 72).level = 3 ∧
    3 < 9.0 * (72 : ℝ) ^ (-0.25 : ℝ) ∧
    9.0 * (72 : ℝ) ^ (-0.25 : ℝ) * 0.7 < 3 := by
  have hx : (2.1 : ℝ) < (72 : ℝ) ^ (0.25 : ℝ) := rpow_quarter_72_gt
  have hx3 : (72 : ℝ) ^ (0.25 : ℝ) < 3 := rpow_quarter_72_lt_3
  have hx0 : (0 : ℝ) < (72 : ℝ) ^ (0.25 : ℝ) := by linarith
  have hy : (4.94 : ℝ) < (72 : ℝ) ^ (0.39 : ℝ) := rpow_39_72_gt
  have hy0 : (0 : ℝ) < (72 : ℝ) ^ (0.39 : ℝ) := by linarith
  have hnegq : (72 : ℝ) ^ (-0.25 : ℝ) = ((72 : ℝ) ^ (0.25 : ℝ))⁻¹ :=
    Real.rpow_neg (by norm_num) _
  have hneg39 : (72 : ℝ) ^ (-0.39 : ℝ) = ((72 : ℝ) ^ (0.39 : ℝ))⁻¹ :=
    Real.rpow_neg (by norm_num) _
  have hcaine : 14.82 * (72 : ℝ) ^ (-0.39 : ℝ) < 3 := by
    rw [hneg39, ← div_eq_mul_inv, div_lt_iff₀ hy0]
    linarith
  have hhim : 3 < 9.0 * (72 : ℝ) ^ (-0.25 : ℝ) := by
    rw [hnegq, ← div_eq_mul_inv, lt_div_iff₀ hx0]
    linarith
  have hband : 9.0 * (72 : ℝ) ^ (-0.25 : ℝ) * 0.7 < 3 := by
    rw [hnegq, ← div_eq_mul_inv, div_mul_eq_mul_div, div_lt_iff₀ hx0]
    linarith
  refine ⟨?_, hhim, hband⟩
  show (if 14.82 * (72 : ℝ) ^ (-0.39 : ℝ) < 3 then 3
      else if 9.0 * (72 : ℝ) ^ (-0.25 : ℝ) < 3 then 2
      else if 9.0 * (72 : ℝ) ^ (-0.25 : ℝ) * 0.7 < 3 then 1 else 0) = 3
  rw [if_pos hcaine]

/-- Claim C6 (amended).  The check classifies into 4 ordered levels using
*both* power-law curves: level 3 (critical) exactly when the intensity
exceeds the global Caine curve `14.82·D^(−0.39)`, level 2 (warning) when it
exceeds only the regional curve `9.0·D^(−0.25)`, level 1 (caution) when it
exceeds only 70 % of the regional threshold, level 0 (safe) otherwise; the
level is monotone in the intensity, and the reported exceedances are the
percentages of the supplied intensity against each curve. -/
lemma checkID_level_eq (I D : ℝ) :
    (checkIDThreshold I D).level =
      if 14.82 * D ^ (-0.39 : ℝ) < I then 3
      else if 9.0 * D ^ (-0.25 : ℝ) < I then 2
      else if 9.0 * D ^ (-0.25 : ℝ) * 0.7 < I then 1 else 0 := rfl

theorem checkIDThreshold_spec :
    (∀ I D : ℝ,
      ((checkIDThreshold I D).level = 3 ↔ 14.82 * D ^ (-0.39 : ℝ) < I) ∧
      ((checkIDThreshold I D).level = 2 ↔
        I ≤ 14.82 * D ^ (-0.39 : ℝ) ∧ 9.0 * D ^ (-0.25 : ℝ) < I) ∧
      ((checkIDThreshold I D).level = 1 ↔
        I ≤ 14.82 * D ^ (-0.39 : ℝ) ∧ I ≤ 9.0 * D ^ (-0.25 : ℝ) ∧
          9.0 * D ^ (-0.25 : ℝ) * 0.7 < I) ∧
      (checkIDThreshold I D).level ≤ 3 ∧
      (checkIDThreshold I D).exceedance_pct_global =
        I / (14.82 * D ^ (-0.39 : ℝ)) * 100 ∧
      (checkIDThreshold I D).exceedance_pct_regional =
        I / (9.0 * D ^ (-0.25 : ℝ)) * 100) ∧
    (∀ I₁ I₂ D : ℝ, I₁ ≤ I₂ →
      (checkIDThreshold I₁ D).level ≤ (checkIDThreshold I₂ D).level) := by
  constructor
  · intro I D
    refine ⟨?_, ?_, ?_, ?_, rfl, rfl⟩
    · rw [checkID_level_eq]
      split_ifs with h1 h2 h3 <;> constructor
      · intro _; exact h1
      · intro _; rfl
      · intro h; exact absurd h (by norm_num)
      · intro h; exact absurd h h1
      · intro h; exact absurd h (by norm_num)
      · intro h; exact absurd h h1
      · intro h; exact absurd h (by norm_num)
      · intro h; exact absurd h h1
    · rw [checkID_level_eq]
      split_ifs with h1 h2 h3 <;> constructor
      · intro h; exact absurd h (by norm_num)
      · rintro ⟨ha, _⟩; exact absurd h1 (not_lt.mpr ha)
      · intro _; exact ⟨not_lt.mp h1, h2⟩
      · intro _; rfl
      · intro h; exact absurd h (by norm_num)
      · rintro ⟨_, hb⟩; exact absurd hb h2
      · intro h; exact absurd h (by norm_num)
      · rintro ⟨_, hb⟩; exact absurd hb h2
    · rw [checkID_level_eq]
      split_ifs with h1 h2 h3 <;> constructor
      · intro h; exact absurd h (by norm_num)
      · rintro ⟨ha, _, _⟩; exact absurd h1 (not_lt.mpr ha)
      · intro h; exact absurd h (by norm_num)
      · rintro ⟨_, hb, _⟩; exact absurd h2 (not_lt.mpr hb)
      · intro _; exact ⟨not_lt.mp h1, not_lt.mp h2, h3⟩
      · intro _; rfl
      · intro h; exact absurd h (by norm_num)
      · rintro ⟨_, _, hc⟩; exact absurd hc h3
    · rw [checkID_level_eq]
      split_ifs <;> omega
  · intro I₁ I₂ D h
    rw [checkID_level_eq, checkID_level_eq]
    split_ifs <;> first | omega | linarith

/-- Witness for C6 (amended): monotonicity of the level in the intensity at
duration 24 h, intensities 2 ≤ 5 mm/hr. -/
theorem checkIDThreshold_spec_witness :
    (checkIDThreshold 2 24).level ≤ (checkIDThreshold 5 24).level :=
  checkIDThreshold_spec.2 2 5 24 (by norm_num)

/-! ## I. Structural assessment (`foundationSafetyCheck`) -/

/-- Parameters of `foundationSafetyCheck` (defaults
`35, 6, 1.5, 10, 150`).  Note that the function receives *no* soil friction
angle; `foundationDepth` and `buildingLoad` are accepted but never used. -/
structure FoundationParams where
  slopeAngle : ℝ
  distanceFromCrest : ℝ
  foundationDepth : ℝ
  slopeHeight : ℝ
  buildingLoad : ℝ

/-- The recommendation sentence of the source is one of two templates; the
deficient template interpolates the numeric deficit
`effectiveSetback - distanceFromCrest`, which is the datum modelled here. -/
inductive FoundationRec where
  | safe
  | deficientBy (deficit : ℝ)

/-- Result record of `foundationSafetyCheck` (constant `method` string
omitted). -/
structure FoundationResult where
  minSetback_IS : ℝ
  minSetback_IRC : ℝ
  effectiveSetback : ℝ
  actualSetback : ℝ
  isSetbackSafe : Prop
  bearingCapacityReduction : ℝ
  recommendation : FoundationRec

/-- `foundationSafetyCheck`:
`minSetback_IS = Math.max(3, slopeHeight * Math.tan((45 - 15) * π / 180))`
(the source hard-codes `45 - 15`, i.e. an assumed `φ/2 = 15°`),
`minSetback_IRC = slopeHeight / 3`, the required setback is their maximum,
and the safety flag compares the actual crest distance against it. -/
def foundationSafetyCheck (p : FoundationParams) : FoundationResult :=
  let minIS := max 3 (p.slopeHeight * Real.tan ((45 - 15) * π / 180))
  let minIRC := p.slopeHeight / 3
  let eff := max minIS minIRC
  let safe := eff ≤ p.distanceFromCrest
  let rf := min 1 (p.distanceFromCrest / (eff * 1.5))
  ⟨minIS, minIRC, eff, p.distanceFromCrest, safe, (1 - rf) * 100,
   if safe then .safe else .deficientBy (eff - p.distanceFromCrest)⟩

/-- The setback formula exactly as the claim states it: the maximum of a
trigonometric rule that *depends on the soil's friction angle* — the
source's own comment documents it as `Setback ≥ H × tan(45° - φ/2)`
(IS 14458) — and the height/3 rule.  Written from the spec's words, to be
compared with the code. -/
def specSetbackRequired (H φ : ℝ) : ℝ := max (H * tanDeg (45 - φ / 2)) (H / 3)

lemma degToRad_30 : degToRad 30 = π / 6 := by unfold degToRad; ring

lemma tanDeg_30 : tanDeg 30 = 1 / Real.sqrt 3 := by
  unfold tanDeg
  rw [degToRad_30, Real.tan_pi_div_six]

lemma tanDeg_30_lt_tanDeg_35 : tanDeg 30 < tanDeg 35 := by
  unfold tanDeg
  refine Real.tan_lt_tan_of_nonneg_of_lt_pi_div_two (degToRad_nonneg (by norm_num))
    (degToRad_lt_pi_div_two (by norm_num)) ?_
  unfold degToRad
  nlinarith [Real.pi_pos]

/-- Claim C9 counterexample.  At slope height 10 m, the code's required
setback is `10·tan(30°) = 10/√3 ≈ 5.77 m` regardless of any soil friction
angle (the function does not even receive one); the claim's formula with a
soil friction angle of 20° gives `max(10·tan(35°), 10/3) ≈ 7.0 m`.  The two
disagree, so the computed setback does not depend on the soil's friction
angle as claimed. -/
theorem foundationSetback_no_friction_dependence :
    (foundationSafetyCheck ⟨35, 6, 1.5, 10, 150⟩).effectiveSetback ≠
      specSetbackRequired 10 20 := by
  have h3 := sqrt_three_bounds
  have hs3 : (0:ℝ) < Real.sqrt 3 := by linarith
  have ht30 : tanDeg 30 = 1 / Real.sqrt 3 := tanDeg_30
  have ht30pos : 0 < tanDeg 30 := by rw [ht30]; positivity
  have h13 : (1:ℝ) / 3 < tanDeg 30 := by
    rw [ht30, div_lt_div_iff (by norm_num) hs3]
    nlinarith
  have hlt : tanDeg 30 < tanDeg 35 := tanDeg_30_lt_tanDeg_35
  have hrad : ((45:ℝ) - 15) * π / 180 = degToRad 30 := by unfold degToRad; ring
  have hLHS : (foundationSafetyCheck ⟨35, 6, 1.5, 10, 150⟩).effectiveSetback =
      10 * tanDeg 30 := by
    show max (max 3 ((10:ℝ) * Real.tan (((45:ℝ) - 15) * π / 180))) (10 / 3) = _
    rw [hrad]
    have h1 : (3:ℝ) ≤ 10 * tanDeg 30 := by
      rw [ht30, mul_one_div, le_div_iff₀ hs3]
      nlinarith
    have h2 : (10:ℝ) / 3 ≤ 10 * tanDeg 30 := by nlinarith
    rw [show Real.tan (degToRad 30) = tanDeg 30 from rfl]
    rw [max_eq_right h1, max_eq_left h2]
  have hRHS : specSetbackRequired 10 20 = 10 * tanDeg 35 := by
    unfold specSetbackRequired
    have : (45:ℝ) - 20 / 2 = 35 := by norm_num
    rw [this]
    exact max_eq_left (by nlinarith)
  rw [hLHS, hRHS]
  intro h
  nlinarith

/-- Claim C9 (amended).  The required setback is the maximum of a
trigonometric rule with the angle *fixed* at 30° (= 45° − 15°, a built-in
assumed friction angle of 30°; the input soil's friction angle is not
consulted) floored at 3 m, and the height/3 rule; when the actual crest
distance is below the requirement the recommendation reports the deficit
(required − actual), and otherwise reports safety. -/
theorem foundationSafetyCheck_spec (p : FoundationParams) :
    (foundationSafetyCheck p).effectiveSetback =
      max (max 3 (p.slopeHeight * tanDeg 30)) (p.slopeHeight / 3) ∧
    ((foundationSafetyCheck p).effectiveSetback ≤ p.distanceFromCrest →
      (foundationSafetyCheck p).recommendation = .safe) ∧
    (p.distanceFromCrest < (foundationSafetyCheck p).effectiveSetback →
      (foundationSafetyCheck p).recommendation =
        .deficientBy ((foundationSafetyCheck p).effectiveSetback -
          p.distanceFromCrest)) := by
  have hrad : ((45:ℝ) - 15) * π / 180 = degToRad 30 := by unfold degToRad; ring
  have heff : (foundationSafetyCheck p).effectiveSetback =
      max (max 3 (p.slopeHeight * Real.tan (((45:ℝ) - 15) * π / 180)))
        (p.slopeHeight / 3) := rfl
  refine ⟨?_, ?_, ?_⟩
  · rw [heff, hrad]
    rfl
  · intro h
    rw [heff] at h
    show (if max (max 3 (p.slopeHeight * Real.tan (((45:ℝ) - 15) * π / 180)))
        (p.slopeHeight / 3) ≤ p.distanceFromCrest then FoundationRec.safe
      else .deficientBy (max (max 3 (p.slopeHeight * Real.tan (((45:ℝ) - 15) * π / 180)))
        (p.slopeHeight / 3) - p.distanceFromCrest)) = FoundationRec.safe
    rw [if_pos h]
  · intro h
    rw [heff] at h ⊢
    show (if max (max 3 (p.slopeHeight * Real.tan (((45:ℝ) - 15) * π / 180)))
        (p.slopeHeight / 3) ≤ p.distanceFromCrest then FoundationRec.safe
      else .deficientBy (max (max 3 (p.slopeHeight * Real.tan (((45:ℝ) - 15) * π / 180)))
        (p.slopeHeight / 3) - p.distanceFromCrest)) = _
    rw [if_neg (not_le.mpr h)]

/-- Witness for C9 (amended): a house 2 m from the crest of a 10 m slope is
deficient, and the recommendation carries the deficit. -/
theorem foundationSafetyCheck_spec_witness :
    (foundationSafetyCheck ⟨35, 2, 1.5, 10, 150⟩).recommendation =
      .deficientBy ((foundationSafetyCheck ⟨35, 2, 1.5, 10, 150⟩).effectiveSetback - 2) := by
  refine (foundationSafetyCheck_spec ⟨35, 2, 1.5, 10, 150⟩).2.2 ?_
  rw [(foundationSafetyCheck_spec ⟨35, 2, 1.5, 10, 150⟩).1]
  have h : (3:ℝ) ≤ max (max 3 ((10:ℝ) * tanDeg 30)) (10 / 3) :=
    le_trans (le_max_left 3 _) (le_max_left _ _)
  linarith

/-! ## K. Mitigation recommender aggregates (`calculateAggregates`) -/

/-- A selected mitigation measure as consumed by `calculateAggregates`: only
its `riskReduction` percentage enters the computation (name, category,
priority, reason, cost and timeframe metadata are never read there). -/
structure Recommendation where
  riskReduction : ℝ

/-- The three timeframe buckets of the recommender's output. -/
structure Recommendations where
  immediate : List Recommendation
  shortTerm : List Recommendation
  longTerm : List Recommendation

/-- `[...rec.immediate, ...rec.shortTerm, ...rec.longTerm]`. -/
def allRecs (r : Recommendations) : List Recommendation :=
  r.immediate ++ r.shortTerm ++ r.longTerm

/-- `calculateAggregates`: `combinedRR = Π_i (1 - rr_i/100)` accumulated over
all selected measures, and `expectedRiskReduction = (1 - combinedRR) * 100`.
(The source's `totalRiskReduction` and `count` locals are computed but never
used; the mutation of `rec.expectedRiskReduction` is embedded as the
returned value.) -/
def expectedRiskReduction (r : Recommendations) : ℝ :=
  (1 - (allRecs r).foldl (fun acc x => acc * (1 - x.riskReduction / 100)) 1) * 100

lemma foldl_mul_eq_prod (g : Recommendation → ℝ) :
    ∀ (l : List Recommendation) (a : ℝ),
      l.foldl (fun acc x => acc * g x) a = a * (l.map g).prod
  | [], a => by simp
  | x :: xs, a => by
    rw [List.foldl_cons, foldl_mul_eq_prod g xs (a * g x), List.map_cons,
      List.prod_cons]
    ring

/-- Claim C10.  The expected combined risk reduction over all selected
measures equals `1 − Π(1 − reduction_i/100)` (reported as a percentage), and
for individual reductions [20 %, 35 %, 15 %] it is exactly
`1 − 0.80·0.65·0.85 = 55.8 %`. -/
theorem expectedRiskReduction_spec :
    (∀ r : Recommendations,
      expectedRiskReduction r =
        (1 - ((allRecs r).map (fun x => 1 - x.riskReduction / 100)).prod) * 100) ∧
    expectedRiskReduction ⟨[⟨20⟩], [⟨35⟩], [⟨15⟩]⟩ = 55.8 := by
  have hgen : ∀ r : Recommendations,
      expectedRiskReduction r =
        (1 - ((allRecs r).map (fun x => 1 - x.riskReduction / 100)).prod) * 100 := by
    intro r
    unfold expectedRiskReduction
    rw [foldl_mul_eq_prod, one_mul]
  refine ⟨hgen, ?_⟩
  rw [hgen]
  show (1 - ([(⟨20⟩ : Recommendation), ⟨35⟩, ⟨15⟩].map
    (fun x => 1 - x.riskReduction / 100)).prod) * 100 = 55.8
  simp only [List.map_cons, List.map_nil, List.prod_cons, List.prod_nil]
  norm_num

/-! ## L. Risk classification engine (`risk-classifier.js`)

Component scorers, the weighted composite, and the score-to-classification
map.  The source destructures many sub-results of the analysis; each scorer
below receives exactly the data the source reads from them.  Display-only
strings (labels, colours, action sentences, NIDM category names) are fully
determined by the classification level and are represented by the level and
the numeric `code`.  The `probabilityIndex` and `confidence` sub-results,
not mentioned by any claim, are omitted. -/

/-- `fosToRiskScore`: 5-range piecewise interpolation from FoS to 0–100. -/
def fosToRiskScore (fos : ℝ) : ℝ :=
  if 2 ≤ fos then max 0 (10 - (fos - 2) * 10)
  else if 1.5 ≤ fos then 10 + (2 - fos) * 40
  else if 1.2 ≤ fos then 30 + (1.5 - fos) * 100
  else if 1 ≤ fos then 60 + (1.2 - fos) * 125
  else if 0.8 ≤ fos then 85 + (1 - fos) * 50
  else min 100 (95 + (0.8 - fos) * 25)

/-- `rainfallToRiskScore` reads `threshold.level` and
`threshold.exceedance_pct_regional` (the `|| 0` defaults of the source apply
only to absent fields; the embedded record always carries both). -/
def rainfallToRiskScore (t : IDResult) : ℝ :=
  if 3 ≤ t.level then 90 + min 10 (t.exceedance_pct_regional / 10)
  else if 2 ≤ t.level then 60 + min 30 (t.exceedance_pct_regional / 5)
  else if 1 ≤ t.level then 30 + min 30 (t.exceedance_pct_regional / 3)
  else max 0 (t.exceedance_pct_regional * 0.3)

/-- `vegetationToRiskScore` reads `veg.vegetationPct`. -/
def vegetationToRiskScore (pct : ℝ) : ℝ :=
  if 80 ≤ pct then 5
  else if 60 ≤ pct then 20
  else if 40 ≤ pct then 40
  else if 20 ≤ pct then 65
  else 85

/-- `structuralToRiskScore`; `none` models the source's empty-object check
(`Object.keys(foundation).length === 0`). -/
def structuralToRiskScore : Option FoundationResult → ℝ
  | none => 50
  | some f =>
    if f.isSetbackSafe then
      if 5 < f.actualSetback - f.effectiveSetback then 5
      else if 2 < f.actualSetback - f.effectiveSetback then 15
      else 25
    else min 100 (50 + (f.effectiveSetback - f.actualSetback) * 10)

/-- `terrainToRiskScore(slopeAngle, saturation)`. -/
def terrainToRiskScore (slopeAngle saturation : ℝ) : ℝ :=
  (if 45 ≤ slopeAngle then (80:ℝ)
   else if 35 ≤ slopeAngle then 55
   else if 25 ≤ slopeAngle then 35
   else if 15 ≤ slopeAngle then 15
   else 5) * 0.6 +
  saturation * 0.7 * 0.4

/-- The four boolean field observations. -/
structure FieldObs where
  cracks : Bool
  seepage : Bool
  pastLandslides : Bool
  construction : Bool

/-- `fieldObsToRiskScore`: additive booleans, capped at 100. -/
def fieldObsToRiskScore (o : FieldObs) : ℝ :=
  min 100 ((if o.cracks then (25:ℝ) else 0) + (if o.seepage then 25 else 0) +
    (if o.pastLandslides then 30 else 0) + (if o.construction then 20 else 0))

/-- The live USGS earthquake summary consumed by `seismicToRiskScore`. -/
structure SeismicData where
  totalEvents : ℝ
  maxMagnitude : ℝ
  nearestDistance : ℝ

/-- `seismicToRiskScore`: default 20 without live data; else event count
(capped at 30) plus magnitude and proximity bumps, capped at 100. -/
def seismicToRiskScore : Option SeismicData → ℝ
  | none => 20
  | some e =>
    min 100 (min 30 (e.totalEvents * 0.5) +
      (if 6 ≤ e.maxMagnitude then (40:ℝ)
       else if 5 ≤ e.maxMagnitude then 30
       else if 4 ≤ e.maxMagnitude then 20
       else if 3 ≤ e.maxMagnitude then 10
       else 0) +
      (if e.nearestDistance < 50 then (30:ℝ)
       else if e.nearestDistance < 100 then 20
       else if e.nearestDistance < 200 then 10
       else 0))

/-- `Math.min(100, weatherSeverity || 0)`; `|| 0` only substitutes an absent
or zero severity, an identity for the signals in [0, 100] considered here. -/
def weatherRiskScore (w : ℝ) : ℝ := min 100 w

/-- The declared component weight vector, in source order: geotechnical,
rainfall, vegetation, structural, terrain, field, seismic, weather. -/
def riskWeights : List ℝ := [0.30, 0.20, 0.12, 0.08, 0.10, 0.05, 0.10, 0.05]

/-- The fields of the analysis result that `classifyRisk` destructures and
feeds to the component scorers. -/
structure RiskInputs where
  compositeFoS : ℝ
  rainfallThreshold : IDResult
  vegetationPct : ℝ
  foundation : Option FoundationResult
  slopeAngle : ℝ
  effectiveSaturation : ℝ
  fieldObservations : FieldObs
  liveEarthquakes : Option SeismicData
  weatherSeverity : ℝ
  riskModifier : ℝ

/-- The weighted composite of the 8 component scores. -/
def compositeScore (a : RiskInputs) : ℝ :=
  fosToRiskScore a.compositeFoS * 0.30 +
  rainfallToRiskScore a.rainfallThreshold * 0.20 +
  vegetationToRiskScore a.vegetationPct * 0.12 +
  structuralToRiskScore a.foundation * 0.08 +
  terrainToRiskScore a.slopeAngle a.effectiveSaturation * 0.10 +
  fieldObsToRiskScore a.fieldObservations * 0.05 +
  seismicToRiskScore a.liveEarthquakes * 0.10 +
  weatherRiskScore a.weatherSeverity * 0.05

/-- `adjustedScore = Math.min(100, compositeScore + riskModifier * 100 * 0.15)`. -/
def adjustedScore (a : RiskInputs) : ℝ :=
  min 100 (compositeScore a + a.riskModifier * 100 * 0.15)

/-- The five classification tiers. -/
inductive RiskLevel where
  | veryLow
  | low
  | medium
  | high
  | critical
deriving DecidableEq

/-- Classification datum: the tier and its numeric `code` (the label,
colour, icon, action and NIDM-category strings are constants per tier). -/
structure Classification where
  level : RiskLevel
  code : ℕ

/-- `scoreToClassification` with the fixed breakpoints 20/40/60/80. -/
def scoreToClassification (s : ℝ) : Classification :=
  if 80 ≤ s then ⟨.critical, 5⟩
  else if 60 ≤ s then ⟨.high, 4⟩
  else if 40 ≤ s then ⟨.medium, 3⟩
  else if 20 ≤ s then ⟨.low, 2⟩
  else ⟨.veryLow, 1⟩

/-- The composite score and classification of `classifyRisk`
(`compositeScore` field of the returned assessment is the adjusted score). -/
structure RiskAssessment where
  compositeScore : ℝ
  classification : Classification

/-- `classifyRisk`, restricted to the fields the claims speak about. -/
def classifyRisk (a : RiskInputs) : RiskAssessment :=
  ⟨adjustedScore a, scoreToClassification (adjustedScore a)⟩

lemma fosToRiskScore_bounds (fos : ℝ) :
    0 ≤ fosToRiskScore fos ∧ fosToRiskScore fos ≤ 100 := by
  unfold fosToRiskScore
  split_ifs with h1 h2 h3 h4 h5
  · exact ⟨le_max_left 0 _, max_le (by norm_num) (by nlinarith)⟩
  · constructor <;> nlinarith
  · constructor <;> nlinarith
  · constructor <;> nlinarith
  · constructor <;> nlinarith
  · exact ⟨le_min (by norm_num) (by nlinarith), min_le_left _ _⟩

lemma rainfallToRiskScore_bounds (I D : ℝ) (hI : 0 ≤ I) (hD : 0 < D) :
    0 ≤ rainfallToRiskScore (checkIDThreshold I D) ∧
      rainfallToRiskScore (checkIDThreshold I D) ≤ 100 := by
  have hhim : (0:ℝ) < 9.0 * D ^ (-0.25 : ℝ) := by
    have := Real.rpow_pos_of_pos hD (-0.25 : ℝ)
    nlinarith
  have hex : (checkIDThreshold I D).exceedance_pct_regional =
      I / (9.0 * D ^ (-0.25 : ℝ)) * 100 := rfl
  have hex0 : 0 ≤ (checkIDThreshold I D).exceedance_pct_regional := by
    rw [hex]
    exact mul_nonneg (div_nonneg hI hhim.le) (by norm_num)
  have hlev := checkID_level_eq I D
  unfold rainfallToRiskScore
  by_cases hc1 : 14.82 * D ^ (-0.39 : ℝ) < I
  · rw [hlev, if_pos hc1] at *
    rw [if_pos (by norm_num : (3:ℕ) ≤ 3)]
    have hm0 : 0 ≤ min 10 ((checkIDThreshold I D).exceedance_pct_regional / 10) :=
      le_min (by norm_num) (by positivity)
    have hm1 : min 10 ((checkIDThreshold I D).exceedance_pct_regional / 10) ≤ 10 :=
      min_le_left _ _
    constructor <;> linarith
  · by_cases hc2 : 9.0 * D ^ (-0.25 : ℝ) < I
    · rw [hlev, if_neg hc1, if_pos hc2] at *
      rw [if_neg (by norm_num : ¬ (3:ℕ) ≤ 2), if_pos (by norm_num : (2:ℕ) ≤ 2)]
      have hm0 : 0 ≤ min 30 ((checkIDThreshold I D).exceedance_pct_regional / 5) :=
        le_min (by norm_num) (by positivity)
      have hm1 : min 30 ((checkIDThreshold I D).exceedance_pct_regional / 5) ≤ 30 :=
        min_le_left _ _
      constructor <;> linarith
    · by_cases hc3 : 9.0 * D ^ (-0.25 : ℝ) * 0.7 < I
      · rw [hlev, if_neg hc1, if_neg hc2, if_pos hc3] at *
        rw [if_neg (by norm_num : ¬ (3:ℕ) ≤ 1), if_neg (by norm_num : ¬ (2:ℕ) ≤ 1),
          if_pos (by norm_num : (1:ℕ) ≤ 1)]
        have hm0 : 0 ≤ min 30 ((checkIDThreshold I D).exceedance_pct_regional / 3) :=
          le_min (by norm_num) (by positivity)
        have hm1 : min 30 ((checkIDThreshold I D).exceedance_pct_regional / 3) ≤ 30 :=
          min_le_left _ _
        constructor <;> linarith
      · rw [hlev, if_neg hc1, if_neg hc2, if_neg hc3] at *
        rw [if_neg (by norm_num : ¬ (3:ℕ) ≤ 0), if_neg (by norm_num : ¬ (2:ℕ) ≤ 0),
          if_neg (by norm_num : ¬ (1:ℕ) ≤ 0)]
        refine ⟨le_max_left 0 _, ?_⟩
        -- below the caution band the exceedance is at most 70 %
        have hband : (checkIDThreshold I D).exceedance_pct_regional ≤ 70 := by
          rw [hex]
          have hIle : I ≤ 9.0 * D ^ (-0.25 : ℝ) * 0.7 := not_lt.mp hc3
          rw [div_mul_eq_mul_div, div_le_iff₀ hhim]
          nlinarith
        exact max_le (by norm_num) (by nlinarith)

lemma vegetationToRiskScore_bounds (pct : ℝ) :
    0 ≤ vegetationToRiskScore pct ∧ vegetationToRiskScore pct ≤ 100 := by
  unfold vegetationToRiskScore
  split_ifs <;> norm_num

lemma structuralToRiskScore_bounds (f? : Option FoundationResult)
    (hf : ∀ f, f? = some f → ¬ f.isSetbackSafe →
      f.actualSetback ≤ f.effectiveSetback) :
    0 ≤ structuralToRiskScore f? ∧ structuralToRiskScore f? ≤ 100 := by
  match f? with
  | none =>
    exact ⟨by show (0:ℝ) ≤ 50; norm_num, by show (50:ℝ) ≤ 100; norm_num⟩
  | some f =>
    have hred : structuralToRiskScore (some f) =
        if f.isSetbackSafe then
          (if 5 < f.actualSetback - f.effectiveSetback then (5:ℝ)
           else if 2 < f.actualSetback - f.effectiveSetback then 15 else 25)
        else min 100 (50 + (f.effectiveSetback - f.actualSetback) * 10) := rfl
    rw [hred]
    by_cases hs : f.isSetbackSafe
    · rw [if_pos hs]
      constructor <;> (split_ifs <;> norm_num)
    · rw [if_neg hs]
      have hle := hf f rfl hs
      exact ⟨le_min (by norm_num) (by nlinarith), min_le_left _ _⟩

lemma terrainToRiskScore_bounds (β sat : ℝ) (h0 : 0 ≤ sat) (h1 : sat ≤ 100) :
    0 ≤ terrainToRiskScore β sat ∧ terrainToRiskScore β sat ≤ 100 := by
  unfold terrainToRiskScore
  split_ifs <;> constructor <;> nlinarith

lemma fieldObsToRiskScore_bounds (o : FieldObs) :
    0 ≤ fieldObsToRiskScore o ∧ fieldObsToRiskScore o ≤ 100 := by
  unfold fieldObsToRiskScore
  refine ⟨le_min (by norm_num) ?_, min_le_left _ _⟩
  split_ifs <;> norm_num

lemma seismicToRiskScore_bounds (e? : Option SeismicData)
    (he : ∀ e, e? = some e → 0 ≤ e.totalEvents) :
    0 ≤ seismicToRiskScore e? ∧ seismicToRiskScore e? ≤ 100 := by
  match e? with
  | none =>
    exact ⟨by show (0:ℝ) ≤ 20; norm_num, by show (20:ℝ) ≤ 100; norm_num⟩
  | some e =>
    have h0 := he e rfl
    show 0 ≤ min 100 _ ∧ min 100 _ ≤ 100
    refine ⟨le_min (by norm_num) ?_, min_le_left _ _⟩
    have hm : 0 ≤ min 30 (e.totalEvents * 0.5) := le_min (by norm_num) (by nlinarith)
    have hmag : (0:ℝ) ≤
        (if 6 ≤ e.maxMagnitude then (40:ℝ)
         else if 5 ≤ e.maxMagnitude then 30
         else if 4 ≤ e.maxMagnitude then 20
         else if 3 ≤ e.maxMagnitude then 10
         else 0) := by split_ifs <;> norm_num
    have hprox : (0:ℝ) ≤
        (if e.nearestDistance < 50 then (30:ℝ)
         else if e.nearestDistance < 100 then 20
         else if e.nearestDistance < 200 then 10
         else 0) := by split_ifs <;> norm_num
    linarith

lemma weatherRiskScore_bounds (w : ℝ) (h0 : 0 ≤ w) :
    0 ≤ weatherRiskScore w ∧ weatherRiskScore w ≤ 100 :=
  ⟨le_min (by norm_num) h0, min_le_left _ _⟩

/-- Claim C5.  The declared weight vector sums to exactly 1 (hence within
1e-9 of 1.0); for any analysis input whose rainfall record comes from the
threshold check (non-negative intensity, positive duration), saturation and
weather severity in [0, 100], non-negative risk modifier, a non-negative
live event count when present, and a foundation record consistent with its
own safety flag, the returned composite score lies in [0, 100]; and the
classification breakpoints are fixed at 20/40/60/80, so that 79.999
classifies HIGH while 80.0 classifies CRITICAL. -/
theorem riskScorer_invariants (a : RiskInputs) (I D : ℝ)
    (hid : a.rainfallThreshold = checkIDThreshold I D)
    (hI : 0 ≤ I) (hD : 0 < D)
    (hsat0 : 0 ≤ a.effectiveSaturation) (hsat1 : a.effectiveSaturation ≤ 100)
    (hw0 : 0 ≤ a.weatherSeverity) (_hw1 : a.weatherSeverity ≤ 100)
    (hrm : 0 ≤ a.riskModifier)
    (hseis : ∀ e, a.liveEarthquakes = some e → 0 ≤ e.totalEvents)
    (hfnd : ∀ f, a.foundation = some f → ¬ f.isSetbackSafe →
      f.actualSetback ≤ f.effectiveSetback) :
    |riskWeights.sum - 1| ≤ 1e-9 ∧
    riskWeights.sum = 1 ∧
    (0 ≤ (classifyRisk a).compositeScore ∧ (classifyRisk a).compositeScore ≤ 100) ∧
    (scoreToClassification 79.999).level = .high ∧
    (scoreToClassification 80).level = .critical := by
  have h1 := fosToRiskScore_bounds a.compositeFoS
  have h2 := rainfallToRiskScore_bounds I D hI hD
  rw [← hid] at h2
  have h3 := vegetationToRiskScore_bounds a.vegetationPct
  have h4 := structuralToRiskScore_bounds a.foundation hfnd
  have h5 := terrainToRiskScore_bounds a.slopeAngle a.effectiveSaturation hsat0 hsat1
  have h6 := fieldObsToRiskScore_bounds a.fieldObservations
  have h7 := seismicToRiskScore_bounds a.liveEarthquakes hseis
  have h8 := weatherRiskScore_bounds a.weatherSeverity hw0
  have hcomp0 : 0 ≤ compositeScore a := by
    unfold compositeScore
    nlinarith [h1.1, h2.1, h3.1, h4.1, h5.1, h6.1, h7.1, h8.1]
  have hcomp1 : compositeScore a ≤ 100 := by
    unfold compositeScore
    nlinarith [h1.2, h2.2, h3.2, h4.2, h5.2, h6.2, h7.2, h8.2]
  refine ⟨by norm_num [riskWeights], by norm_num [riskWeights], ⟨?_, ?_⟩, ?_, ?_⟩
  · show 0 ≤ adjustedScore a
    unfold adjustedScore
    exact le_min (by norm_num) (by nlinarith)
  · exact min_le_left _ _
  · unfold scoreToClassification
    rw [if_neg (by norm_num), if_pos (by norm_num)]
  · unfold scoreToClassification
    rw [if_pos (by norm_num)]

/-- A concrete analysis input for the C5 witness: the golden FoS regime with
a 5 mm/hr, 24 h storm, 40 % vegetation, no foundation record, slope 35°,
saturation 50 %, no field observations, no live signals beyond a weather
severity of 50. -/
def riskWitnessInputs : RiskInputs :=
  ⟨1.2, checkIDThreshold 5 24, 40, none, 35, 50, ⟨false, false, false, false⟩,
   none, 50, 0⟩

/-- Witness for C5: the invariants theorem applied at `riskWitnessInputs`. -/
theorem riskScorer_invariants_witness :
    |riskWeights.sum - 1| ≤ 1e-9 ∧
    riskWeights.sum = 1 ∧
    (0 ≤ (classifyRisk riskWitnessInputs).compositeScore ∧
      (classifyRisk riskWitnessInputs).compositeScore ≤ 100) ∧
    (scoreToClassification 79.999).level = .high ∧
    (scoreToClassification 80).level = .critical :=
  riskScorer_invariants riskWitnessInputs 5 24 rfl (by norm_num) (by norm_num)
    (by show (0:ℝ) ≤ 50; norm_num) (by show (50:ℝ) ≤ 100; norm_num)
    (by show (0:ℝ) ≤ 50; norm_num) (by show (50:ℝ) ≤ 100; norm_num)
    (by show (0:ℝ) ≤ 0; norm_num)
    (fun e h => nomatch h) (fun f h => nomatch h)

/-! ## J. Comprehensive analysis (`runComprehensiveAnalysis`)

The remaining sub-models consumed by the comprehensive analysis: the static
soil catalog, synthetic slice generation, the Janbu solver, the vegetation
factor, Green-Ampt infiltration, and the tornado sensitivity analysis. -/

/-- One `SOIL_DATABASE` entry: the name, the (mean, stddev) pairs, the
permeability mean, porosity and classification code. -/
structure SoilProfile where
  name : String
  cohesion_mean : ℝ
  cohesion_stddev : ℝ
  friction_mean : ℝ
  friction_stddev : ℝ
  unitWeight_mean : ℝ
  unitWeight_stddev : ℝ
  permeability_mean : ℝ
  porosity : ℝ
  classification : String

def clayeySandProfile : SoilProfile :=
  ⟨"Clayey Sand (SC)", 8, 2.5, 28, 3, 18.5, 1.0, 1e-5, 0.38, "SC (IS 1498)"⟩

def siltyClayProfile : SoilProfile :=
  ⟨"Silty Clay (CL)", 20, 5, 18, 2, 17.5, 0.8, 1e-7, 0.45, "CL (IS 1498)"⟩

def sandyGravelProfile : SoilProfile :=
  ⟨"Sandy Gravel (GW/GP)", 0, 0, 36, 3, 20.0, 1.2, 1e-3, 0.32, "GW/GP (IS 1498)"⟩

def residualSoilProfile : SoilProfile :=
  ⟨"Residual Soil (Himalayan)", 12, 4, 25, 4, 17.0, 1.5, 1e-4, 0.42,
   "Residual (Site-specific)"⟩

def weatheredRockProfile : SoilProfile :=
  ⟨"Weathered Rock", 25, 8, 32, 4, 22.0, 1.5, 1e-6, 0.25, "Weathered Rock"⟩

def colluvialDepositProfile : SoilProfile :=
  ⟨"Colluvial Deposit", 5, 2, 30, 5, 18.0, 1.8, 1e-4, 0.40, "Colluvial"⟩

def blackCottonProfile : SoilProfile :=
  ⟨"Black Cotton Soil (CH)", 30, 8, 12, 2, 16.5, 0.8, 1e-8, 0.50, "CH (IS 1498)"⟩

def lateriteProfile : SoilProfile :=
  ⟨"Laterite Soil", 15, 5, 22, 3, 19.0, 1.0, 1e-5, 0.38, "Laterite"⟩

/-- The catalog keys of `SOIL_DATABASE`. -/
def soilKeys : List String :=
  ["clayey_sand", "silty_clay", "sandy_gravel", "residual_soil",
   "weathered_rock", "colluvial_deposit", "black_cotton", "laterite"]

/-- `SOIL_DATABASE[soilType] || SOIL_DATABASE['clayey_sand']`: catalog lookup
with silent fallback to the clayey-sand profile for any unknown key. -/
def soilFromKey (k : String) : SoilProfile :=
  if k = "clayey_sand" then clayeySandProfile
  else if k = "silty_clay" then siltyClayProfile
  else if k = "sandy_gravel" then sandyGravelProfile
  else if k = "residual_soil" then residualSoilProfile
  else if k = "weathered_rock" then weatheredRockProfile
  else if k = "colluvial_deposit" then colluvialDepositProfile
  else if k = "black_cotton" then blackCottonProfile
  else if k = "laterite" then lateriteProfile
  else clayeySandProfile

/-- `generateSlices(params, nSlices = 10)`: inclination decreasing from the
slope angle toward the toe, depth following a half-sine profile. -/
def generateSlices (p : MCParams) (nSlices : ℕ) : List Slice :=
  let slopeLength := p.depth / sinDeg p.slopeAngle
  let sliceWidth := slopeLength / (nSlices : ℝ)
  (List.range nSlices).map (fun i =>
    let position := ((i : ℝ) + 0.5) / (nSlices : ℝ)
    let sliceDepth := p.depth * (0.5 + 0.5 * Real.sin (π * position))
    ⟨sliceWidth, p.slopeAngle * (1 - position * 0.7),
     p.unitWeight * sliceDepth * sliceWidth, p.cohesion, p.frictionAngle,
     WATER_DENSITY * sliceDepth * (p.saturation / 100)⟩)

/-- Result record of `janbuSimplified` (constant `method` string omitted). -/
structure JanbuResult where
  fos : ℝ
  f0 : ℝ

/-- The Janbu slice sums, skipping (`continue`) slices with `cos α = 0`. -/
def janbuSums (s : List Slice) : ℝ × ℝ :=
  s.foldl (fun acc sl =>
    if cosDeg sl.alpha = 0 then acc
    else
      (acc.1 + (sl.cohesion * sl.width +
          (sl.weight - sl.pore_pressure * sl.width) * tanDeg sl.phi) / cosDeg sl.alpha,
       acc.2 + sl.weight * tanDeg sl.alpha)) (0, 0)

/-- `janbuSimplified(slices, f0 = 1.05)`. -/
def janbuSimplified (s : List Slice) (f0 : ℝ) : JanbuResult :=
  ⟨if (janbuSums s).2 = 0 then 10 else f0 * (janbuSums s).1 / (janbuSums s).2, f0⟩

/-- The five vegetation bands; each determines the `category` and
`deforestationRisk` strings of the source. -/
inductive VegBand where
  | denseForest
  | moderateForest
  | sparseVegetation
  | degradedGrassland
  | barrenExposed

/-- Result record of `vegetationFactor`. -/
structure VegResult where
  rootCohesion : ℝ
  category : VegBand
  ndvi_estimate : ℝ
  vegetationPct : ℝ
  treeDensity_est : ℤ

/-- `vegetationFactor(vegetationPct)`: banded root cohesion, a linear NDVI
proxy and `Math.round(vegetationPct * 8)` trees per hectare. -/
def vegetationFactor (pct : ℝ) : VegResult :=
  if 80 ≤ pct then ⟨12, .denseForest, pct / 100 * 0.7 + 0.1, pct, round (pct * 8)⟩
  else if 60 ≤ pct then ⟨8, .moderateForest, pct / 100 * 0.7 + 0.1, pct, round (pct * 8)⟩
  else if 40 ≤ pct then ⟨5, .sparseVegetation, pct / 100 * 0.7 + 0.1, pct, round (pct * 8)⟩
  else if 20 ≤ pct then ⟨2, .degradedGrassland, pct / 100 * 0.7 + 0.1, pct, round (pct * 8)⟩
  else ⟨0, .barrenExposed, pct / 100 * 0.7 + 0.1, pct, round (pct * 8)⟩

/-- One hourly sample of the Green-Ampt infiltration history. -/
structure GARecord where
  time_hr : ℝ
  infiltration_rate_mmhr : ℝ
  cumulative_mm : ℝ
  capacity_mmhr : ℝ

/-- The mutable state of the Green-Ampt time-stepping loop. -/
structure GAState where
  F : ℝ
  history : List GARecord
  satTime : Option ℝ

/-- One 60-second step of the Green-Ampt loop at index `step`: capacity
`K·(1 + ψ·Δθ/F)`, actual infiltration `min(capacity, rainfall)`, cumulative
update, an hourly history record (pushed after the `F` update, as in the
source), and the first saturation time. -/
def gaStep (K psi dθ rain : ℝ) (st : GAState) (step : ℕ) : GAState :=
  let t : ℝ := (step : ℝ) * 60
  let cap := K * (1 + psi * dθ / st.F)
  let act := min cap rain
  let F2 := st.F + act * 60
  ⟨F2,
   if step % 60 = 0 then
     st.history ++ [⟨t / 3600, act * 1000 * 3600, F2 * 1000, cap * 1000 * 3600⟩]
   else st.history,
   if cap ≤ rain ∧ st.satTime = none then some (t / 3600) else st.satTime⟩

/-- Result record of `greenAmptInfiltration` (constant `method` string
omitted; `runoff_onset = saturationTime !== null`). -/
structure GAResult where
  cumulative_infiltration_mm : ℝ
  final_rate_mmhr : ℝ
  saturation_time_hr : Option ℝ
  runoff_onset : Bool
  history : List GARecord

/-- `greenAmptInfiltration`: `totalSteps = Math.floor(duration*3600/60)`
60-second steps starting from `F = 0.001`. -/
def greenAmptInfiltration (K psi theta_i theta_s rainfall_rate duration : ℝ) :
    GAResult :=
  let dθ := theta_s - theta_i
  let rain := rainfall_rate / (1000 * 3600)
  let st := (List.range ⌊duration * 3600 / 60⌋₊).foldl (gaStep K psi dθ rain)
    ⟨0.001, [], none⟩
  ⟨st.F * 1000,
   ((st.history.getLast?).map (fun r => r.infiltration_rate_mmhr)).getD 0,
   st.satTime, st.satTime.isSome, st.history⟩

/-- The five perturbed parameters of the tornado sensitivity analysis. -/
inductive SensKey where
  | cohesion
  | frictionAngle
  | slopeAngle
  | unitWeight
  | saturation
deriving DecidableEq, Inhabited

def baseValueOf (p : MCParams) : SensKey → ℝ
  | .cohesion => p.cohesion
  | .frictionAngle => p.frictionAngle
  | .slopeAngle => p.slopeAngle
  | .unitWeight => p.unitWeight
  | .saturation => p.saturation

def setKey (p : MCParams) : SensKey → ℝ → MCParams
  | .cohesion, v => { p with cohesion := v }
  | .frictionAngle, v => { p with frictionAngle := v }
  | .slopeAngle, v => { p with slopeAngle := v }
  | .unitWeight, v => { p with unitWeight := v }
  | .saturation, v => { p with saturation := v }

/-- The `infiniteSlope` call on the six common parameters, the remaining
fields at their defaults (the shape `sensitivityAnalysis` and
`monteCarloSimulation` use). -/
def toISParams (p : MCParams) : ISParams :=
  ⟨p.cohesion, p.frictionAngle, p.slopeAngle, p.unitWeight, p.depth,
   p.saturation, 0, 0, 0⟩

def sensFosAt (p : MCParams) : ℝ := (infiniteSlope (toISParams p)).fos

/-- One row of the sensitivity table (the display `label` string of the
source is a constant per key). -/
structure SensEntry where
  key : SensKey
  baseValue : ℝ
  fos_high : ℝ
  fos_low : ℝ
  swing : ℝ
  sensitivity_pct : ℝ
deriving Inhabited

/-- One parameter's ±10 % perturbation: the +10 % case caps saturation at
100, the −10 % case is uncapped; swing is the absolute FoS difference. -/
def sensEntry (p : MCParams) (base_fos : ℝ) (k : SensKey) : SensEntry :=
  let v := baseValueOf p k
  let vhigh := if k = .saturation then min 100 (v * 1.1) else v * 1.1
  let fh := sensFosAt (setKey p k vhigh)
  let fl := sensFosAt (setKey p k (v * 0.9))
  ⟨k, v, fh, fl, |fh - fl|, |fh - fl| / base_fos * 100⟩

/-- The five keys in the source's object-literal order. -/
def sensKeys : List SensKey :=
  [.cohesion, .frictionAngle, .slopeAngle, .unitWeight, .saturation]

/-- Insertion into a list already sorted by `swing` descending; together
with `sortBySwingDesc` this models
`Object.keys(results).sort((a, b) => results[b].swing - results[a].swing)`. -/
def insertBySwingDesc (x : SensEntry) : List SensEntry → List SensEntry
  | [] => [x]
  | y :: ys => if y.swing < x.swing then x :: y :: ys else y :: insertBySwingDesc x ys

def sortBySwingDesc (l : List SensEntry) : List SensEntry :=
  l.foldr insertBySwingDesc []

/-- Result record of `sensitivityAnalysis` (the per-key table is kept in
source order in `entries`; `sortedEntries` is the swing-descending ranking
whose head is the most sensitive parameter). -/
structure SensResult where
  base_fos : ℝ
  entries : List SensEntry
  sortedEntries : List SensEntry
  mostSensitive : SensKey

/-- `sensitivityAnalysis(baseParams)`. -/
def sensitivityAnalysis (p : MCParams) : SensResult :=
  let base := sensFosAt p
  let entries := sensKeys.map (sensEntry p base)
  let sorted := sortBySwingDesc entries
  ⟨base, entries, sorted, sorted.headI.key⟩

/-- The field inputs destructured by `runComprehensiveAnalysis` (source
defaults: slope 35°, soil `clayey_sand`, vegetation 40 %, rainfall 5 mm/hr
over 24 h, house distance 6 m, `poor` drainage, saturation 50 %, all
observations false; `location` is an opaque pass-through, modelled as a
latitude/longitude pair). -/
structure SiteData where
  location : ℝ × ℝ
  slopeAngle : ℝ
  soilType : String
  vegetationPct : ℝ
  rainfallIntensity : ℝ
  rainfallDuration : ℝ
  houseDistance : ℝ
  drainageCondition : String
  saturation : ℝ
  cracks : Bool
  seepage : Bool
  pastLandslides : Bool
  construction : Bool

/-- The drainage modifier table with `|| 1.0` fallback for unknown keys. -/
def drainageSatModifier (s : String) : ℝ :=
  if s == "good" then 0.7
  else if s == "moderate" then 0.85
  else if s == "poor" then 1.0
  else if s == "blocked" then 1.15
  else 1.0

/-- The full record returned by `runComprehensiveAnalysis`.  Every returned
field is embedded except `timestamp` (a wall-clock read, independent of all
inputs) and the constant `disclaimer` sentence, kept here as a `String`
field exactly as returned.  There is no field recording the requested
soil-type key or whether the catalog lookup fell back. -/
structure AnalysisResult where
  location : ℝ × ℝ
  soilProperties : SoilProfile
  slopeAngle : ℝ
  effectiveSaturation : ℝ
  infiniteSlope : ISResult
  bishop : BishopResult
  janbu : JanbuResult
  compositeFoS : ℝ
  rainfallThreshold : IDResult
  infiltration : GAResult
  vegetation : VegResult
  foundation : FoundationResult
  monteCarlo : MCResult
  sensitivity : SensResult
  riskModifier : ℝ
  fieldObservations : FieldObs
  disclaimer : String

/-- The body of `runComprehensiveAnalysis` after the soil lookup
(`const soil = SOIL_DATABASE[soilType] || SOIL_DATABASE['clayey_sand']`);
it receives the resolved profile and the destructured site fields, exactly
as the source's body consumes them (the key itself is never used again). -/
def analysisWithProfile (soil : SoilProfile) (location : ℝ × ℝ)
    (slopeAngle vegetationPct rainfallIntensity rainfallDuration houseDistance : ℝ)
    (drainageCondition : String) (saturation : ℝ)
    (cracks seepage pastLandslides construction : Bool)
    (zs : ℕ → ZDraw) : AnalysisResult :=
  let crackReduction : ℝ := if cracks then 0.25 else 0
  let vegAnalysis := vegetationFactor vegetationPct
  let effectiveSaturation := min 100 (saturation * drainageSatModifier drainageCondition)
  let isRes := infiniteSlope ⟨soil.cohesion_mean, soil.friction_mean, slopeAngle,
    soil.unitWeight_mean, DEFAULT_DEPTH, effectiveSaturation, crackReduction,
    vegAnalysis.rootCohesion, 0⟩
  let slices := generateSlices ⟨soil.cohesion_mean, soil.friction_mean, slopeAngle,
    soil.unitWeight_mean, effectiveSaturation, DEFAULT_DEPTH⟩ 10
  let bishopRes := bishopSimplified slices 50
  let janbuRes := janbuSimplified slices 1.05
  let idRes := checkIDThreshold rainfallIntensity rainfallDuration
  let infil := greenAmptInfiltration soil.permeability_mean 0.2
    (soil.porosity * (1 - saturation / 100)) soil.porosity rainfallIntensity
    rainfallDuration
  let fnd := foundationSafetyCheck ⟨slopeAngle, houseDistance, 1.5,
    DEFAULT_DEPTH / sinDeg slopeAngle * cosDeg slopeAngle, 150⟩
  let mc := monteCarloSimulation ⟨soil.cohesion_mean, soil.friction_mean, slopeAngle,
    soil.unitWeight_mean, effectiveSaturation, DEFAULT_DEPTH⟩ zs 2000
  let sens := sensitivityAnalysis ⟨soil.cohesion_mean, soil.friction_mean, slopeAngle,
    soil.unitWeight_mean, effectiveSaturation, DEFAULT_DEPTH⟩
  ⟨location, soil, slopeAngle, effectiveSaturation, isRes, bishopRes, janbuRes,
   isRes.fos * 0.4 + bishopRes.fos * 0.35 + janbuRes.fos * 0.25, idRes, infil,
   vegAnalysis, fnd, mc, sens,
   (if seepage then (0.15:ℝ) else 0) + (if pastLandslides then 0.2 else 0) +
     (if construction then 0.1 else 0) + (if 2 ≤ idRes.level then 0.15 else 0),
   ⟨cracks, seepage, pastLandslides, construction⟩,
   "Decision support output only. Final engineering approval required from certified geotechnical engineer per NIDM 2019 guidelines."⟩

/-- `runComprehensiveAnalysis(siteData)`: resolve the soil profile (with the
silent clayey-sand fallback), then run the body. -/
def runComprehensiveAnalysis (sd : SiteData) (zs : ℕ → ZDraw) : AnalysisResult :=
  analysisWithProfile (soilFromKey sd.soilType) sd.location sd.slopeAngle
    sd.vegetationPct sd.rainfallIntensity sd.rainfallDuration sd.houseDistance
    sd.drainageCondition sd.saturation sd.cracks sd.seepage sd.pastLandslides
    sd.construction zs

/-- A typical site-data record, parameterised by the soil-type key. -/
def siteDataWith (k : String) : SiteData :=
  ⟨(30, 79), 35, k, 40, 5, 24, 6, "poor", 50, false, false, false, false⟩

lemma soilFromKey_clayey_sand : soilFromKey "clayey_sand" = clayeySandProfile := by
  unfold soilFromKey
  rw [if_pos rfl]

/-- Claim C8 counterexample.  The comprehensive analysis for the unknown
soil key `"alluvium"` is *identical*, field for field, to the analysis for
`"clayey_sand"` on the same site data and random stream: the returned result
carries no flag (and not even the requested key), so no caller can detect
from the result that the fallback substitution occurred. -/
theorem soilFallback_silent_cx :
    runComprehensiveAnalysis (siteDataWith "alluvium") (fun _ => ⟨0, 0, 0, 0⟩) =
      runComprehensiveAnalysis (siteDataWith "clayey_sand") (fun _ => ⟨0, 0, 0, 0⟩) := by
  have h1 : soilFromKey "alluvium" = clayeySandProfile := by
    unfold soilFromKey
    rw [if_neg (by decide), if_neg (by decide), if_neg (by decide),
      if_neg (by decide), if_neg (by decide), if_neg (by decide),
      if_neg (by decide), if_neg (by decide)]
  show analysisWithProfile (soilFromKey "alluvium") (30, 79) 35 40 5 24 6 "poor" 50
      false false false false (fun _ => ⟨0, 0, 0, 0⟩) =
    analysisWithProfile (soilFromKey "clayey_sand") (30, 79) 35 40 5 24 6 "poor" 50
      false false false false (fun _ => ⟨0, 0, 0, 0⟩)
  rw [h1, soilFromKey_clayey_sand]

/-- Claim C8 (amended).  An unknown soil-classification key falls back to
the documented default `clayey_sand` profile, but the substitution is
silent: the returned result carries no flag — indeed the analysis result
for the unknown key is identical to the analysis result for
`"clayey_sand"` itself, so no function of the result can reveal the
substitution. -/
theorem soilFallback_spec (k : String) (hk : k ∉ soilKeys) (sd : SiteData)
    (zs : ℕ → ZDraw) :
    soilFromKey k = clayeySandProfile ∧
    runComprehensiveAnalysis { sd with soilType := k } zs =
      runComprehensiveAnalysis { sd with soilType := "clayey_sand" } zs := by
  simp only [soilKeys, List.mem_cons, List.not_mem_nil, or_false, not_or] at hk
  obtain ⟨h1, h2, h3, h4, h5, h6, h7, h8⟩ := hk
  have hfb : soilFromKey k = clayeySandProfile := by
    unfold soilFromKey
    rw [if_neg h1, if_neg h2, if_neg h3, if_neg h4, if_neg h5, if_neg h6,
      if_neg h7, if_neg h8]
  refine ⟨hfb, ?_⟩
  show analysisWithProfile (soilFromKey k) sd.location sd.slopeAngle
      sd.vegetationPct sd.rainfallIntensity sd.rainfallDuration sd.houseDistance
      sd.drainageCondition sd.saturation sd.cracks sd.seepage sd.pastLandslides
      sd.construction zs =
    analysisWithProfile (soilFromKey "clayey_sand") sd.location sd.slopeAngle
      sd.vegetationPct sd.rainfallIntensity sd.rainfallDuration sd.houseDistance
      sd.drainageCondition sd.saturation sd.cracks sd.seepage sd.pastLandslides
      sd.construction zs
  rw [hfb, soilFromKey_clayey_sand]

/-- Witness for C8 (amended): the fallback theorem applied to the unknown
key `"foo"` on a concrete site record. -/
theorem soilFallback_spec_witness :
    soilFromKey "foo" = clayeySandProfile ∧
    runComprehensiveAnalysis { siteDataWith "poor" with soilType := "foo" }
        (fun _ => ⟨0, 0, 0, 0⟩) =
      runComprehensiveAnalysis { siteDataWith "poor" with soilType := "clayey_sand" }
        (fun _ => ⟨0, 0, 0, 0⟩) :=
  soilFallback_spec "foo" (by decide) (siteDataWith "poor") (fun _ => ⟨0, 0, 0, 0⟩)

end

end Dhara
